import Mathlib

/-!
Verification development for the KMRL train-scheduling dashboard.

The TypeScript sources are embedded shallowly:

* JS timestamps (`new Date(s).getTime()`) are modelled as `Int` milliseconds
  since the epoch; `Date.prototype.setMinutes(getMinutes() + k)` is adding
  `k * 60000` milliseconds.
* JS numbers are modelled as exact rationals (`ℚ`); `x / 0` is `0` in this
  model (JS would produce `Infinity`/`NaN`), noted where it matters.
* `Math.random()` is modelled as an explicit stream `Nat → ℚ` of draws,
  consumed left to right; `Date.now()`-derived identifier strings and other
  purely presentational fields (descriptions, resolutions, timestamps) are
  omitted from record models.
* Timezone-dependent `Date` accessors (`getHours`, `getMinutes`) are passed
  in as explicit function parameters.
* JS `Array.prototype.sort` is stable; it is modelled by `List.mergeSort`.
-/

/-- JS `Math.floor` on the rational model of JS numbers. -/
def jsFloor (q : ℚ) : Int := q.num.fdiv q.den

/-- JS `x || d` for a possibly-`undefined` number `x`: both `undefined` and
`0` are falsy and fall back to `d`. -/
def jsOrNum (x : Option ℚ) (d : ℚ) : ℚ :=
  match x with
  | none => d
  | some v => if v = 0 then d else v

/-- Ordered pairs `(l[i], l[j])` with `i < j`, in the order a doubly nested
`for` loop visits them. -/
def listPairs {α : Type} : List α → List (α × α)
  | [] => []
  | x :: rest => (rest.map fun y => (x, y)) ++ listPairs rest

/-- Consecutive pairs `(l[i-1], l[i])` of a list, in order. -/
def pairsConsec {α : Type} : List α → List (α × α)
  | a :: b :: rest => (a, b) :: pairsConsec (b :: rest)
  | _ => []

/-- Leading decimal digits of a character list, if any (radix-10 digit
prefix used by JS `parseInt`). -/
def leadingDigits (l : List Char) : Option Nat :=
  let ds := l.takeWhile (fun c => c.isDigit)
  if ds.isEmpty then none
  else some (ds.foldl (fun n c => n * 10 + (c.toNat - Char.toNat (Char.ofNat 48))) 0)

/-- JS `parseInt(s)` (radix 10): optional sign then a digit prefix; `none`
models `NaN`. -/
def jsParseInt (s : String) : Option Int :=
  match s.data with
  | [] => none
  | c :: rest =>
    if c = Char.ofNat 45 then (leadingDigits rest).map (fun n => -(n : Int))
    else if c = Char.ofNat 43 then (leadingDigits rest).map (fun n => (n : Int))
    else (leadingDigits (c :: rest)).map (fun n => (n : Int))

/-- `Schedule` view-model as used by the AI modules (`src/types`), with the
two ISO time strings replaced by their epoch-millisecond values. -/
structure Schedule where
  id : String
  trainId : String
  routeId : String
  departureTime : Int
  arrivalTime : Int
  delayMinutes : ℚ
  passengerCount : Option ℚ
  status : String
deriving DecidableEq, Repr

/-- `Train` view-model; `specifications.maxSpeed` is flattened into
`specMaxSpeed`. -/
structure Train where
  id : String
  name : String
  type : String
  capacity : ℚ
  status : String
  specMaxSpeed : ℚ
deriving DecidableEq, Repr

/-- `Route` view-model (fields used by the AI modules). -/
structure Route where
  id : String
  stations : List String
  startStation : String
  endStation : String
  distanceKm : ℚ
  estimatedDuration : Int
deriving DecidableEq, Repr

/-- The `conflictType` union of the `Conflict` view-model. -/
inductive ConflictType
  | temporal_overlap
  | resource_conflict
  | capacity_exceeded
  | maintenance_conflict
deriving DecidableEq, Repr

/-- The `severity` union of the `Conflict` view-model. -/
inductive Severity
  | low
  | medium
  | high
  | critical
deriving DecidableEq, Repr

/-- `Conflict` view-model. The `id`, `description`, `suggestedResolution`
and `detectedAt` fields are presentational strings built from `Date.now()`
and `toFixed`; they are omitted from the model. -/
structure Conflict where
  scheduleId1 : String
  scheduleId2 : String
  conflictType : ConflictType
  severity : Severity
  confidenceScore : ℚ
  resolved : Bool
deriving DecidableEq, Repr

namespace ConflictDetector

def SAFETY_BUFFER_MINUTES : Int := 5

def TURNAROUND_TIME_MINUTES : ℚ := 10

def PEAK_HOURS : List Int := [7, 8, 9, 17, 18, 19]

/-- `calculateConfidenceScore(conflictType, value)`: a switch on the string
tag. -/
def calculateConfidenceScore (conflictType : String) (value : ℚ) : ℚ :=
  if conflictType = "temporal_overlap" then min 0.95 (0.5 + value / 20)
  else if conflictType = "resource_conflict" then min 0.95 (0.7 + (10 - value) / 20)
  else if conflictType = "capacity_exceeded" then min 0.95 (0.6 + (value - 1) * 0.3)
  else if conflictType = "turnaround" then min 0.95 (0.8 + (1 - value) * 0.15)
  else 0.75

/-- `checkTemporalOverlap(schedule1, schedule2)`: overlap test on the two
time windows after extending each start backward by the 5-minute safety
buffer, emitting a `temporal_overlap` conflict when the strict comparisons
hold. -/
def checkTemporalOverlap (s1 s2 : Schedule) : Option Conflict :=
  let buffer : Int := SAFETY_BUFFER_MINUTES * 60 * 1000
  if s1.departureTime - buffer < s2.arrivalTime ∧ s2.departureTime - buffer < s1.arrivalTime then
    let overlapMs : Int := min s1.arrivalTime s2.arrivalTime - max s1.departureTime s2.departureTime
    let overlapMinutesValue : ℚ := (overlapMs : ℚ) / (1000 * 60)
    some
      { scheduleId1 := s1.id
        scheduleId2 := s2.id
        conflictType := ConflictType.temporal_overlap
        severity :=
          if overlapMinutesValue > 10 then Severity.high
          else if overlapMinutesValue > 5 then Severity.medium
          else Severity.low
        confidenceScore := calculateConfidenceScore "temporal_overlap" overlapMinutesValue
        resolved := false }
  else none

/-- `hasRouteOverlap(schedule1, schedule2, routes)`: the first routes found
for the two schedules share at least one station. -/
def hasRouteOverlap (s1 s2 : Schedule) (routes : List Route) : Bool :=
  match routes.find? (fun r => r.id = s1.routeId), routes.find? (fun r => r.id = s2.routeId) with
  | some r1, some r2 => r1.stations.any (fun st => r2.stations.contains st)
  | _, _ => false

/-- `detectTemporalConflicts(schedules, routes)`: doubly nested loop over
pairs `i < j`, filtered by route overlap, then the temporal check. -/
def detectTemporalConflicts : List Schedule → List Route → List Conflict
  | [], _ => []
  | s1 :: rest, routes =>
    (rest.filterMap fun s2 =>
      if hasRouteOverlap s1 s2 routes then checkTemporalOverlap s1 s2 else none)
      ++ detectTemporalConflicts rest routes

/-- Insertion-ordered grouping of schedules by `trainId`, as a JS `Map`
built with `forEach` would produce. -/
def groupByTrain (schedules : List Schedule) : List (String × List Schedule) :=
  schedules.foldl
    (fun acc s =>
      if acc.any (fun p => p.1 = s.trainId) then
        acc.map (fun p => if p.1 = s.trainId then (p.1, p.2 ++ [s]) else p)
      else acc ++ [(s.trainId, [s])])
    []

/-- Sort a train's schedules by departure time (JS stable `sort` with the
`departureTime` difference comparator). -/
def sortByDeparture (l : List Schedule) : List Schedule :=
  l.mergeSort (fun a b => a.departureTime ≤ b.departureTime)

/-- `detectResourceConflicts(schedules, trains)`: per-train consecutive
pairs whose turnaround gap is under 10 minutes. -/
def detectResourceConflicts (schedules : List Schedule) (_trains : List Train) : List Conflict :=
  (groupByTrain schedules).flatMap fun p =>
    (pairsConsec (sortByDeparture p.2)).filterMap fun q =>
      let prevSchedule := q.1
      let currentSchedule := q.2
      let gapMinutes : ℚ := ((currentSchedule.departureTime - prevSchedule.arrivalTime : Int) : ℚ) / (1000 * 60)
      if gapMinutes < TURNAROUND_TIME_MINUTES then
        some
          { scheduleId1 := prevSchedule.id
            scheduleId2 := currentSchedule.id
            conflictType := ConflictType.resource_conflict
            severity := if gapMinutes < 5 then Severity.high else Severity.medium
            confidenceScore := calculateConfidenceScore "resource_conflict" gapMinutes
            resolved := false }
      else none

/-- One entry of the `hourlyCapacity` map: the schedules pushed under a key
and their accumulated `passengerCount || 0`. -/
structure HourlyEntry where
  schedules : List Schedule
  capacity : ℚ
deriving DecidableEq, Repr

/-- Build the `hourlyCapacity` map keyed by the interpolated string
`routeId-hour`, in insertion order. -/
def hourlyCapacityMap (hoursOf : Int → Int) (schedules : List Schedule) :
    List (String × HourlyEntry) :=
  schedules.foldl
    (fun acc s =>
      let routeKey := s.routeId ++ "-" ++ toString (hoursOf s.departureTime)
      if acc.any (fun p => p.1 = routeKey) then
        acc.map fun p =>
          if p.1 = routeKey then
            (p.1, { schedules := p.2.schedules ++ [s]
                    capacity := p.2.capacity + jsOrNum s.passengerCount 0 })
          else p
      else
        acc ++ [(routeKey, { schedules := [s], capacity := jsOrNum s.passengerCount 0 })])
    []

/-- `detectCapacityConflicts(schedules, routes)`: the peak-hour capacity scan
over the `hourlyCapacity` map. The key is split back on the dash, so a
`routeId` containing a dash is mis-parsed, exactly as in the source. -/
def detectCapacityConflicts (hoursOf : Int → Int) (schedules : List Schedule)
    (routes : List Route) : List Conflict :=
  (hourlyCapacityMap hoursOf schedules).filterMap fun p =>
    let parts := p.1.splitOn "-"
    let routeId := parts.getD 0 ""
    let hourStr := parts.getD 1 ""
    match jsParseInt hourStr with
    | none => none
    | some hour =>
      match routes.find? (fun r => r.id = routeId) with
      | none => none
      | some _ =>
        if PEAK_HOURS.contains hour then
          let maxHourlyCapacity : ℚ := 10000
          if p.2.capacity > maxHourlyCapacity then
            match p.2.schedules, p.2.schedules.getLast? with
            | s0 :: _, some sLast =>
              some
                { scheduleId1 := s0.id
                  scheduleId2 := sLast.id
                  conflictType := ConflictType.capacity_exceeded
                  severity :=
                    if p.2.capacity > maxHourlyCapacity * 1.2 then Severity.high
                    else Severity.medium
                  confidenceScore :=
                    calculateConfidenceScore "capacity_exceeded" (p.2.capacity / maxHourlyCapacity)
                  resolved := false }
            | _, _ => none
          else none
        else none

/-- A hard-coded maintenance window of the detector. -/
structure MaintenanceWindow where
  trainId : String
  start : String
  stop : String
deriving DecidableEq, Repr

def maintenanceWindows : List MaintenanceWindow :=
  [ { trainId := "train-004", start := "02:00", stop := "05:00" },
    { trainId := "train-002", start := "01:30", stop := "03:30" } ]

/-- `"HH:MM".split(':').map(Number)` -/
def parseHM (s : String) : Option (Int × Int) :=
  match (s.splitOn ":").map jsParseInt with
  | [some h, some m] => some (h, m)
  | _ => none

/-- `detectMaintenanceConflicts(schedules, trains)`: schedules whose local
departure minute-of-day falls inside a train's maintenance window. -/
def detectMaintenanceConflicts (hoursOf minutesOf : Int → Int)
    (schedules : List Schedule) (_trains : List Train) : List Conflict :=
  schedules.flatMap fun s =>
    let scheduleMinutes := hoursOf s.departureTime * 60 + minutesOf s.departureTime
    maintenanceWindows.filterMap fun w =>
      if s.trainId = w.trainId then
        match parseHM w.start, parseHM w.stop with
        | some (sh, sm), some (eh, em) =>
          let startMinutes := sh * 60 + sm
          let endMinutes := eh * 60 + em
          if startMinutes ≤ scheduleMinutes ∧ scheduleMinutes ≤ endMinutes then
            some
              { scheduleId1 := s.id
                scheduleId2 := ""
                conflictType := ConflictType.maintenance_conflict
                severity := Severity.high
                confidenceScore := 0.95
                resolved := false }
          else none
        | _, _ => none
      else none

/-- `detectTurnaroundConflicts(schedules, routes)`: per-train consecutive
pairs needing more turnaround (20 minutes when repositioning between
routes, 10 otherwise). -/
def detectTurnaroundConflicts (schedules : List Schedule) (routes : List Route) : List Conflict :=
  (groupByTrain schedules).flatMap fun p =>
    (pairsConsec (sortByDeparture p.2)).filterMap fun q =>
      let prevSchedule := q.1
      let currentSchedule := q.2
      match routes.find? (fun r => r.id = prevSchedule.routeId),
          routes.find? (fun r => r.id = currentSchedule.routeId) with
      | some prevRoute, some currentRoute =>
        let needsRepositioning := prevRoute.endStation ≠ currentRoute.startStation
        let requiredTurnaround : ℚ := if needsRepositioning then 20 else TURNAROUND_TIME_MINUTES
        let actualTurnaround : ℚ :=
          ((currentSchedule.departureTime - prevSchedule.arrivalTime : Int) : ℚ) / (1000 * 60)
        if actualTurnaround < requiredTurnaround then
          some
            { scheduleId1 := prevSchedule.id
              scheduleId2 := currentSchedule.id
              conflictType := ConflictType.temporal_overlap
              severity :=
                if actualTurnaround < requiredTurnaround / 2 then Severity.high
                else Severity.medium
              confidenceScore :=
                calculateConfidenceScore "turnaround" (actualTurnaround / requiredTurnaround)
              resolved := false }
        else none
      | _, _ => none

/-- The `riskAssessment` summary record. -/
structure RiskAssessment where
  highRisk : Nat
  mediumRisk : Nat
  lowRisk : Nat
deriving DecidableEq, Repr

/-- `calculateRiskAssessment(conflicts)`: count conflicts per severity,
`critical` counting as high risk. -/
def calculateRiskAssessment (conflicts : List Conflict) : RiskAssessment :=
  conflicts.foldl
    (fun acc c =>
      match c.severity with
      | Severity.high => { acc with highRisk := acc.highRisk + 1 }
      | Severity.critical => { acc with highRisk := acc.highRisk + 1 }
      | Severity.medium => { acc with mediumRisk := acc.mediumRisk + 1 }
      | Severity.low => { acc with lowRisk := acc.lowRisk + 1 })
    { highRisk := 0, mediumRisk := 0, lowRisk := 0 }

/-- `generateRecommendations(conflicts, schedules, trains, routes)`.
The leading emoji characters of the source strings are elided. -/
def generateRecommendations (hoursOf : Int → Int) (conflicts : List Conflict)
    (schedules : List Schedule) (_trains : List Train) (_routes : List Route) : List String :=
  let highPriorityConflicts := conflicts.filter fun c =>
    c.severity = Severity.high ∨ c.severity = Severity.critical
  let temporalConflicts := conflicts.filter fun c =>
    c.conflictType = ConflictType.temporal_overlap
  let resourceConflicts := conflicts.filter fun c =>
    c.conflictType = ConflictType.resource_conflict
  let capacityConflicts := conflicts.filter fun c =>
    c.conflictType = ConflictType.capacity_exceeded
  let r1 : List String :=
    if highPriorityConflicts.length > 0 then
      [toString highPriorityConflicts.length ++ " high-priority conflicts require immediate attention"]
    else []
  let r2 : List String :=
    if temporalConflicts.length > 0 then
      ["Review " ++ toString temporalConflicts.length ++ " temporal conflicts - consider adjusting departure times"]
    else []
  let r3 : List String :=
    if resourceConflicts.length > 0 then
      [toString resourceConflicts.length ++ " resource conflicts detected - optimize train assignments"]
    else []
  let r4 : List String :=
    if capacityConflicts.length > 0 then
      ["Capacity issues during peak hours - consider additional trains"]
    else []
  let peakHourSchedules := schedules.filter fun s => PEAK_HOURS.contains (hoursOf s.departureTime)
  let r5 : List String :=
    if (peakHourSchedules.length : ℚ) > (schedules.length : ℚ) * 0.4 then
      ["High concentration of schedules during peak hours - consider load balancing"]
    else []
  let maintenanceConflicts := conflicts.filter fun c =>
    c.conflictType = ConflictType.maintenance_conflict
  let r6 : List String :=
    if maintenanceConflicts.length > 0 then
      ["Reschedule maintenance activities to avoid operational conflicts"]
    else []
  let recommendations := r1 ++ r2 ++ r3 ++ r4 ++ r5 ++ r6
  if recommendations.length = 0 then
    ["No major conflicts detected - schedule appears optimized"]
  else recommendations

/-- Return value of `detectConflicts`. -/
structure ConflictAnalysis where
  conflicts : List Conflict
  riskAssessment : RiskAssessment
  recommendations : List String
deriving DecidableEq, Repr

/-- `detectConflicts(schedules, trains, routes)`: concatenate the five
detectors, then summarise. `hoursOf`/`minutesOf` model the
timezone-dependent `Date` accessors. -/
def detectConflicts (hoursOf minutesOf : Int → Int) (schedules : List Schedule)
    (trains : List Train) (routes : List Route) : ConflictAnalysis :=
  let conflicts :=
    detectTemporalConflicts schedules routes
      ++ detectResourceConflicts schedules trains
      ++ detectCapacityConflicts hoursOf schedules routes
      ++ detectMaintenanceConflicts hoursOf minutesOf schedules trains
      ++ detectTurnaroundConflicts schedules routes
  { conflicts := conflicts
    riskAssessment := calculateRiskAssessment conflicts
    recommendations := generateRecommendations hoursOf conflicts schedules trains routes }

end ConflictDetector

namespace ConflictDetector

/-- Spec-side: the first routes found for the two schedules share at least
one station. -/
def RoutesShareStation (s1 s2 : Schedule) (routes : List Route) : Prop :=
  ∃ r1 r2, routes.find? (fun r => r.id = s1.routeId) = some r1 ∧
    routes.find? (fun r => r.id = s2.routeId) = some r2 ∧
    ∃ st, st ∈ r1.stations ∧ st ∈ r2.stations

/-- Spec-side: the time windows of the two schedules, each start extended
backward by the 5-minute safety buffer, overlap: some instant lies strictly
inside both extended windows. -/
def WindowsOverlap (s1 s2 : Schedule) : Prop :=
  ∃ t : ℚ,
    ((s1.departureTime - SAFETY_BUFFER_MINUTES * 60 * 1000 : Int) : ℚ) < t ∧ t < (s1.arrivalTime : ℚ) ∧
    ((s2.departureTime - SAFETY_BUFFER_MINUTES * 60 * 1000 : Int) : ℚ) < t ∧ t < (s2.arrivalTime : ℚ)

theorem windowsOverlap_iff_four (s1 s2 : Schedule) :
    WindowsOverlap s1 s2 ↔
      (s1.departureTime - SAFETY_BUFFER_MINUTES * 60 * 1000 < s1.arrivalTime ∧
       s1.departureTime - SAFETY_BUFFER_MINUTES * 60 * 1000 < s2.arrivalTime ∧
       s2.departureTime - SAFETY_BUFFER_MINUTES * 60 * 1000 < s1.arrivalTime ∧
       s2.departureTime - SAFETY_BUFFER_MINUTES * 60 * 1000 < s2.arrivalTime) := by
  constructor
  · rintro ⟨t, h11, h12, h21, h22⟩
    refine ⟨?_, ?_, ?_, ?_⟩
    · exact_mod_cast lt_trans h11 h12
    · exact_mod_cast lt_trans h11 h22
    · exact_mod_cast lt_trans h21 h12
    · exact_mod_cast lt_trans h21 h22
  · rintro ⟨h11, h12, h21, h22⟩
    have hlt : max ((s1.departureTime - SAFETY_BUFFER_MINUTES * 60 * 1000 : Int) : ℚ)
        ((s2.departureTime - SAFETY_BUFFER_MINUTES * 60 * 1000 : Int) : ℚ) <
        min ((s1.arrivalTime : Int) : ℚ) ((s2.arrivalTime : Int) : ℚ) := by
      rw [max_lt_iff, lt_min_iff, lt_min_iff]
      exact ⟨⟨by exact_mod_cast h11, by exact_mod_cast h12⟩,
        ⟨by exact_mod_cast h21, by exact_mod_cast h22⟩⟩
    obtain ⟨t, ht1, ht2⟩ := exists_between hlt
    rw [max_lt_iff] at ht1
    rw [lt_min_iff] at ht2
    exact ⟨t, ht1.1, ht2.1, ht1.2, ht2.2⟩

instance (s1 s2 : Schedule) : Decidable (WindowsOverlap s1 s2) :=
  decidable_of_iff _ (windowsOverlap_iff_four s1 s2).symm

theorem hasRouteOverlap_iff (s1 s2 : Schedule) (routes : List Route) :
    hasRouteOverlap s1 s2 routes = true ↔ RoutesShareStation s1 s2 routes := by
  unfold hasRouteOverlap RoutesShareStation
  cases hf1 : routes.find? (fun r => r.id = s1.routeId) with
  | none => simp [hf1]
  | some r1 =>
    cases hf2 : routes.find? (fun r => r.id = s2.routeId) with
    | none => simp [hf1, hf2]
    | some r2 =>
      simp only [hf1, hf2, List.any_eq_true]
      constructor
      · rintro ⟨st, hst1, hst2⟩
        exact ⟨r1, r2, rfl, rfl, st, hst1, by simpa [List.elem_iff] using hst2⟩
      · rintro ⟨r1', r2', h1', h2', st, hst1, hst2⟩
        cases Option.some.inj h1'
        cases Option.some.inj h2'
        exact ⟨st, hst1, by simpa [List.elem_iff] using hst2⟩

instance (s1 s2 : Schedule) (routes : List Route) :
    Decidable (RoutesShareStation s1 s2 routes) :=
  decidable_of_iff _ (hasRouteOverlap_iff s1 s2 routes)

/-- The `temporal_overlap` conflict record `checkTemporalOverlap` builds for
a pair. -/
def mkTemporalConflict (s1 s2 : Schedule) : Conflict :=
  let overlapMs : Int := min s1.arrivalTime s2.arrivalTime - max s1.departureTime s2.departureTime
  let overlapMinutesValue : ℚ := (overlapMs : ℚ) / (1000 * 60)
  { scheduleId1 := s1.id
    scheduleId2 := s2.id
    conflictType := ConflictType.temporal_overlap
    severity :=
      if overlapMinutesValue > 10 then Severity.high
      else if overlapMinutesValue > 5 then Severity.medium
      else Severity.low
    confidenceScore := calculateConfidenceScore "temporal_overlap" overlapMinutesValue
    resolved := false }

theorem checkTemporalOverlap_eq (s1 s2 : Schedule) :
    checkTemporalOverlap s1 s2 =
      if s1.departureTime - SAFETY_BUFFER_MINUTES * 60 * 1000 < s2.arrivalTime ∧
          s2.departureTime - SAFETY_BUFFER_MINUTES * 60 * 1000 < s1.arrivalTime then
        some (mkTemporalConflict s1 s2)
      else none := rfl

theorem filterMap_congr_mem {α β : Type} {l : List α} {f g : α → Option β}
    (h : ∀ a ∈ l, f a = g a) : l.filterMap f = l.filterMap g :=
  List.filterMap_congr h

/-- Pointwise form of the temporal pass for one examined pair of schedules
with nonempty time windows. -/
theorem temporal_pair_spec (s1 s2 : Schedule) (routes : List Route)
    (h1 : s1.departureTime < s1.arrivalTime) (h2 : s2.departureTime < s2.arrivalTime) :
    (if hasRouteOverlap s1 s2 routes then checkTemporalOverlap s1 s2 else none) =
      (if RoutesShareStation s1 s2 routes ∧ WindowsOverlap s1 s2 then
        some (mkTemporalConflict s1 s2) else none) := by
  have hbuf1 : s1.departureTime - SAFETY_BUFFER_MINUTES * 60 * 1000 < s1.arrivalTime := by
    have : (0 : Int) < SAFETY_BUFFER_MINUTES * 60 * 1000 := by decide
    omega
  have hbuf2 : s2.departureTime - SAFETY_BUFFER_MINUTES * 60 * 1000 < s2.arrivalTime := by
    have : (0 : Int) < SAFETY_BUFFER_MINUTES * 60 * 1000 := by decide
    omega
  have hov : WindowsOverlap s1 s2 ↔
      (s1.departureTime - SAFETY_BUFFER_MINUTES * 60 * 1000 < s2.arrivalTime ∧
       s2.departureTime - SAFETY_BUFFER_MINUTES * 60 * 1000 < s1.arrivalTime) := by
    rw [windowsOverlap_iff_four]
    constructor
    · rintro ⟨-, h12, h21, -⟩; exact ⟨h12, h21⟩
    · rintro ⟨h12, h21⟩; exact ⟨hbuf1, h12, h21, hbuf2⟩
  by_cases hshare : RoutesShareStation s1 s2 routes
  · have hbool : hasRouteOverlap s1 s2 routes = true := (hasRouteOverlap_iff s1 s2 routes).mpr hshare
    rw [hbool, if_pos rfl, checkTemporalOverlap_eq]
    by_cases hws : WindowsOverlap s1 s2
    · rw [if_pos (hov.mp hws), if_pos ⟨hshare, hws⟩]
    · rw [if_neg (fun hc => hws (hov.mpr hc)), if_neg (fun hc => hws hc.2)]
  · have hbool : hasRouteOverlap s1 s2 routes = false := by
      cases hb : hasRouteOverlap s1 s2 routes with
      | false => rfl
      | true => exact absurd ((hasRouteOverlap_iff s1 s2 routes).mp hb) hshare
    rw [hbool, if_neg (fun hc => Bool.false_ne_true hc), if_neg (fun hc => hshare hc.1)]

/-- C1. The temporal pass examines every ordered pair `i < j` of schedules;
for a pair it emits the `temporal_overlap` conflict exactly when the two
schedules' routes share a station and their buffer-extended time windows
overlap (share an instant strictly inside both), assuming each schedule's
time window is nonempty (departure strictly before arrival). -/
theorem detectTemporalConflicts_spec (schedules : List Schedule) (routes : List Route)
    (h : ∀ s ∈ schedules, s.departureTime < s.arrivalTime) :
    detectTemporalConflicts schedules routes =
      (listPairs schedules).filterMap fun p =>
        if RoutesShareStation p.1 p.2 routes ∧ WindowsOverlap p.1 p.2 then
          some (mkTemporalConflict p.1 p.2)
        else none := by
  induction schedules with
  | nil => rfl
  | cons s1 rest ih =>
    have hs1 : s1.departureTime < s1.arrivalTime := h s1 (List.mem_cons_self s1 rest)
    have hrest : ∀ s ∈ rest, s.departureTime < s.arrivalTime :=
      fun s hs => h s (List.mem_cons_of_mem s1 hs)
    simp only [detectTemporalConflicts, listPairs, List.filterMap_append, List.filterMap_map]
    rw [ih hrest]
    congr 1
    apply filterMap_congr_mem
    intro s2 hs2
    exact temporal_pair_spec s1 s2 routes hs1 (hrest s2 hs2)

end ConflictDetector

/-- A sample route used by concrete witnesses. -/
def sampleRoute : Route :=
  { id := "route-1", stations := ["Aluva", "Kalamassery"], startStation := "Aluva",
    endStation := "Kalamassery", distanceKm := 10, estimatedDuration := 45 }

/-- A sample schedule used by concrete witnesses. -/
def sampleSchedule1 : Schedule :=
  { id := "s1", trainId := "t1", routeId := "route-1", departureTime := 0,
    arrivalTime := 600000, delayMinutes := 0, passengerCount := none, status := "scheduled" }

/-- A second sample schedule, overlapping the first on the same route. -/
def sampleSchedule2 : Schedule :=
  { id := "s2", trainId := "t2", routeId := "route-1", departureTime := 300000,
    arrivalTime := 900000, delayMinutes := 0, passengerCount := none, status := "scheduled" }

/-- Witness for C1 at a concrete overlapping pair. -/
theorem detectTemporalConflicts_spec_witness :
    (∀ s ∈ [sampleSchedule1, sampleSchedule2], s.departureTime < s.arrivalTime) ∧
      ConflictDetector.detectTemporalConflicts [sampleSchedule1, sampleSchedule2] [sampleRoute] =
        (listPairs [sampleSchedule1, sampleSchedule2]).filterMap fun p =>
          if ConflictDetector.RoutesShareStation p.1 p.2 [sampleRoute] ∧
              ConflictDetector.WindowsOverlap p.1 p.2 then
            some (ConflictDetector.mkTemporalConflict p.1 p.2)
          else none :=
  ⟨by decide, ConflictDetector.detectTemporalConflicts_spec _ _ (by decide)⟩

namespace ConflictDetector

/-- The invariant C9 asserts of every emitted conflict. -/
def ConflictWellFormed (c : Conflict) : Prop :=
  c.resolved = false ∧ c.confidenceScore ≤ 0.95 ∧
    (c.severity = Severity.high ∨ c.severity = Severity.medium ∨ c.severity = Severity.low)

theorem calculateConfidenceScore_le (tag : String) (value : ℚ) :
    calculateConfidenceScore tag value ≤ 0.95 := by
  unfold calculateConfidenceScore
  split_ifs <;> first | exact min_le_left _ _ | norm_num

theorem checkTemporalOverlap_wf (s1 s2 : Schedule) (c : Conflict)
    (h : checkTemporalOverlap s1 s2 = some c) : ConflictWellFormed c := by
  rw [checkTemporalOverlap_eq] at h
  unfold mkTemporalConflict at h
  dsimp only at h
  repeat' split at h
  all_goals first
    | exact Option.noConfusion h
    | (cases Option.some.inj h
       refine ⟨rfl, ?_, ?_⟩
       · first | exact calculateConfidenceScore_le _ _ | norm_num
       · dsimp only
         first | (split_ifs <;> simp) | simp)

theorem detectTemporalConflicts_wf (schedules : List Schedule) (routes : List Route)
    (c : Conflict) (h : c ∈ detectTemporalConflicts schedules routes) :
    ConflictWellFormed c := by
  induction schedules with
  | nil => simp [detectTemporalConflicts] at h
  | cons s1 rest ih =>
    simp only [detectTemporalConflicts, List.mem_append, List.mem_filterMap] at h
    rcases h with ⟨s2, _, hsome⟩ | hrec
    · split at hsome
      · exact checkTemporalOverlap_wf s1 s2 c hsome
      · exact absurd hsome (by simp)
    · exact ih hrec

theorem detectResourceConflicts_wf (schedules : List Schedule) (trains : List Train)
    (c : Conflict) (h : c ∈ detectResourceConflicts schedules trains) :
    ConflictWellFormed c := by
  unfold detectResourceConflicts at h
  rw [List.mem_flatMap] at h
  obtain ⟨p, -, hp⟩ := h
  rw [List.mem_filterMap] at hp
  obtain ⟨q, -, hq⟩ := hp
  dsimp only at hq
  repeat' split at hq
  all_goals first
    | exact Option.noConfusion hq
    | (cases Option.some.inj hq
       refine ⟨rfl, ?_, ?_⟩
       · first | exact calculateConfidenceScore_le _ _ | norm_num
       · dsimp only
         first | (split_ifs <;> simp) | simp)

theorem detectCapacityConflicts_wf (hoursOf : Int → Int) (schedules : List Schedule)
    (routes : List Route) (c : Conflict) (h : c ∈ detectCapacityConflicts hoursOf schedules routes) :
    ConflictWellFormed c := by
  unfold detectCapacityConflicts at h
  rw [List.mem_filterMap] at h
  obtain ⟨p, -, hp⟩ := h
  dsimp only at hp
  repeat' split at hp
  all_goals first
    | exact Option.noConfusion hp
    | (cases Option.some.inj hp
       refine ⟨rfl, ?_, ?_⟩
       · first | exact calculateConfidenceScore_le _ _ | norm_num
       · dsimp only
         first | (split_ifs <;> simp) | simp)

theorem detectMaintenanceConflicts_wf (hoursOf minutesOf : Int → Int)
    (schedules : List Schedule) (trains : List Train) (c : Conflict)
    (h : c ∈ detectMaintenanceConflicts hoursOf minutesOf schedules trains) :
    ConflictWellFormed c := by
  unfold detectMaintenanceConflicts at h
  rw [List.mem_flatMap] at h
  obtain ⟨s, -, hs⟩ := h
  rw [List.mem_filterMap] at hs
  obtain ⟨w, -, hw⟩ := hs
  dsimp only at hw
  repeat' split at hw
  all_goals first
    | exact Option.noConfusion hw
    | (cases Option.some.inj hw
       refine ⟨rfl, ?_, ?_⟩
       · first | exact calculateConfidenceScore_le _ _ | norm_num
       · dsimp only
         first | (split_ifs <;> simp) | simp)

theorem detectTurnaroundConflicts_wf (schedules : List Schedule) (routes : List Route)
    (c : Conflict) (h : c ∈ detectTurnaroundConflicts schedules routes) :
    ConflictWellFormed c := by
  unfold detectTurnaroundConflicts at h
  rw [List.mem_flatMap] at h
  obtain ⟨p, -, hp⟩ := h
  rw [List.mem_filterMap] at hp
  obtain ⟨q, -, hq⟩ := hp
  dsimp only at hq
  repeat' split at hq
  all_goals first
    | exact Option.noConfusion hq
    | (cases Option.some.inj hq
       refine ⟨rfl, ?_, ?_⟩
       · first | exact calculateConfidenceScore_le _ _ | norm_num
       · dsimp only
         first | (split_ifs <;> simp) | simp)

theorem riskAssessment_foldl_sum (conflicts : List Conflict) (acc : RiskAssessment) :
    (conflicts.foldl
        (fun acc c =>
          match c.severity with
          | Severity.high => { acc with highRisk := acc.highRisk + 1 }
          | Severity.critical => { acc with highRisk := acc.highRisk + 1 }
          | Severity.medium => { acc with mediumRisk := acc.mediumRisk + 1 }
          | Severity.low => { acc with lowRisk := acc.lowRisk + 1 })
        acc).highRisk
      + (conflicts.foldl
          (fun acc c =>
            match c.severity with
            | Severity.high => { acc with highRisk := acc.highRisk + 1 }
            | Severity.critical => { acc with highRisk := acc.highRisk + 1 }
            | Severity.medium => { acc with mediumRisk := acc.mediumRisk + 1 }
            | Severity.low => { acc with lowRisk := acc.lowRisk + 1 })
          acc).mediumRisk
      + (conflicts.foldl
          (fun acc c =>
            match c.severity with
            | Severity.high => { acc with highRisk := acc.highRisk + 1 }
            | Severity.critical => { acc with highRisk := acc.highRisk + 1 }
            | Severity.medium => { acc with mediumRisk := acc.mediumRisk + 1 }
            | Severity.low => { acc with lowRisk := acc.lowRisk + 1 })
          acc).lowRisk
      = acc.highRisk + acc.mediumRisk + acc.lowRisk + conflicts.length := by
  induction conflicts generalizing acc with
  | nil => simp
  | cons c rest ih =>
    simp only [List.foldl_cons, List.length_cons]
    rw [ih]
    cases hs : c.severity <;> simp <;> omega

theorem calculateRiskAssessment_sum (conflicts : List Conflict) :
    (calculateRiskAssessment conflicts).highRisk + (calculateRiskAssessment conflicts).mediumRisk
        + (calculateRiskAssessment conflicts).lowRisk = conflicts.length := by
  unfold calculateRiskAssessment
  have := riskAssessment_foldl_sum conflicts { highRisk := 0, mediumRisk := 0, lowRisk := 0 }
  simpa using this

/-- C9. Every conflict emitted by `detectConflicts` is unresolved, has
confidence at most 0.95, and severity `high`, `medium` or `low`; the risk
assessment counters sum to the number of conflicts. -/
theorem detectConflicts_invariant (hoursOf minutesOf : Int → Int)
    (schedules : List Schedule) (trains : List Train) (routes : List Route) :
    (∀ c ∈ (detectConflicts hoursOf minutesOf schedules trains routes).conflicts,
        ConflictWellFormed c) ∧
      (detectConflicts hoursOf minutesOf schedules trains routes).riskAssessment.highRisk
        + (detectConflicts hoursOf minutesOf schedules trains routes).riskAssessment.mediumRisk
        + (detectConflicts hoursOf minutesOf schedules trains routes).riskAssessment.lowRisk
      = (detectConflicts hoursOf minutesOf schedules trains routes).conflicts.length := by
  constructor
  · intro c hc
    simp only [detectConflicts, List.mem_append] at hc
    rcases hc with ((((h | h) | h) | h) | h)
    · exact detectTemporalConflicts_wf schedules routes c h
    · exact detectResourceConflicts_wf schedules trains c h
    · exact detectCapacityConflicts_wf hoursOf schedules routes c h
    · exact detectMaintenanceConflicts_wf hoursOf minutesOf schedules trains c h
    · exact detectTurnaroundConflicts_wf schedules routes c h
  · exact calculateRiskAssessment_sum _

end ConflictDetector

/-- Witness for C9: the invariant evaluated on a concrete conflicting pair,
with the UTC hour/minute functions. -/
theorem detectConflicts_invariant_witness :
    (ConflictDetector.detectConflicts (fun _ => 0) (fun _ => 0)
          [sampleSchedule1, sampleSchedule2] [] [sampleRoute]).conflicts.length = 1 ∧
      (ConflictDetector.detectConflicts (fun _ => 0) (fun _ => 0)
            [sampleSchedule1, sampleSchedule2] [] [sampleRoute]).riskAssessment.highRisk
          + (ConflictDetector.detectConflicts (fun _ => 0) (fun _ => 0)
              [sampleSchedule1, sampleSchedule2] [] [sampleRoute]).riskAssessment.mediumRisk
          + (ConflictDetector.detectConflicts (fun _ => 0) (fun _ => 0)
              [sampleSchedule1, sampleSchedule2] [] [sampleRoute]).riskAssessment.lowRisk
        = (ConflictDetector.detectConflicts (fun _ => 0) (fun _ => 0)
            [sampleSchedule1, sampleSchedule2] [] [sampleRoute]).conflicts.length :=
  ⟨by with_unfolding_all decide,
    (ConflictDetector.detectConflicts_invariant (fun _ => 0) (fun _ => 0)
      [sampleSchedule1, sampleSchedule2] [] [sampleRoute]).2⟩

/-- A stream of `Math.random()` draws. -/
def Rng : Type := Nat → ℚ

/-- Take the next draw from the stream. -/
def draw (rng : Rng) : ℚ × Rng := (rng 0, fun n => rng (n + 1))

/-- JS indexing `l[i]` with a JS number index: negative indices give the
default (modelling `undefined`, which is unreachable for in-range draws). -/
def jsIndex {α : Type} (l : List α) (i : Int) (d : α) : α :=
  if i < 0 then d else l.getD i.toNat d

/-- Placeholder for an `undefined` schedule (unreachable with in-range
random draws). -/
def defaultSchedule : Schedule :=
  { id := "", trainId := "", routeId := "", departureTime := 0, arrivalTime := 0,
    delayMinutes := 0, passengerCount := none, status := "" }

namespace ScheduleOptimizer

def populationSize : Nat := 50

def maxGenerations : Nat := 100

def mutationRate : ℚ := 0.1

def crossoverRate : ℚ := 0.8

/-- The `constraints` part of `AIOptimizationRequest`. -/
structure Constraints where
  maxDelayMinutes : ℚ
  minTurnaroundTime : ℚ
  maintenanceWindows : List String
deriving DecidableEq, Repr

/-- The `preferences` part of `AIOptimizationRequest`. -/
structure Preferences where
  prioritizeOnTime : ℚ
  prioritizeEfficiency : ℚ
  prioritizePassengerComfort : ℚ
deriving DecidableEq, Repr

/-- `AIOptimizationRequest` view-model. -/
structure AIOptimizationRequest where
  scheduleIds : List String
  optimizationType : String
  constraints : Constraints
  preferences : Preferences
deriving DecidableEq, Repr

/-- `OptimizationResult` view-model (`id` and `createdAt`, built from
`Date.now()`, are omitted; `optimizationDetails` is flattened). -/
structure OptimizationResult where
  originalScheduleId : String
  optimizedDepartureTime : Int
  optimizedArrivalTime : Int
  efficiencyScore : ℚ
  improvementPercentage : ℚ
  delayReduction : ℚ
  utilizationImprovement : ℚ
  energySavings : ℚ
deriving DecidableEq, Repr

/-- `adjustTime(timeString, minMinutes, maxMinutes)`: add
`floor(random() * (max - min + 1)) + min` minutes. -/
def adjustTime (rng : Rng) (time : Int) (minMinutes maxMinutes : Int) : Int × Rng :=
  let p := draw rng
  let adjustment := jsFloor (p.1 * ((maxMinutes - minMinutes + 1 : Int) : ℚ)) + minMinutes
  (time + adjustment * 60000, p.2)

/-- One individual of `initializePopulation`: each schedule's departure and
arrival times are jittered by up to plus or minus 10 minutes. -/
def adjustIndividual (rng : Rng) : List Schedule → List Schedule × Rng
  | [] => ([], rng)
  | s :: rest =>
    let d := adjustTime rng s.departureTime (-10) 10
    let a := adjustTime d.2 s.arrivalTime (-10) 10
    let rest' := adjustIndividual a.2 rest
    ({ s with departureTime := d.1, arrivalTime := a.1 } :: rest'.1, rest'.2)

/-- The `for` loop of `initializePopulation`, building `n` individuals. -/
def initPopGo (schedules : List Schedule) (rng : Rng) : Nat → List (List Schedule) × Rng
  | 0 => ([], rng)
  | n + 1 =>
    let ind := adjustIndividual rng schedules
    let rest := initPopGo schedules ind.2 n
    (ind.1 :: rest.1, rest.2)

/-- `initializePopulation(schedules, trains, routes)`. -/
def initializePopulation (schedules : List Schedule) (_trains : List Train)
    (_routes : List Route) (rng : Rng) : List (List Schedule) × Rng :=
  initPopGo schedules rng populationSize

/-- `hasTemporalConflict(schedule1, schedule2)` of the optimizer. -/
def hasTemporalConflict (s1 s2 : Schedule) : Bool :=
  let buffer : Int := 5 * 60 * 1000
  decide (s1.departureTime - buffer < s2.arrivalTime ∧ s2.departureTime - buffer < s1.arrivalTime)

/-- `calculateConstraintPenalty(schedules, constraints)`. -/
def calculateConstraintPenalty (schedules : List Schedule) (constraints : Constraints) : ℚ :=
  let pairPenalty :=
    (listPairs schedules).foldl
      (fun acc p => if hasTemporalConflict p.1 p.2 then acc + 50 else acc) 0
  let delayPenalty :=
    schedules.foldl
      (fun acc s =>
        if s.delayMinutes > constraints.maxDelayMinutes then
          acc + (s.delayMinutes - constraints.maxDelayMinutes)
        else acc)
      0
  pairPenalty + delayPenalty

/-- `calculateDelayScore(schedules)`. For an empty list the JS code divides
zero by zero (`NaN`); this model yields 100 there. -/
def calculateDelayScore (schedules : List Schedule) : ℚ :=
  let totalDelay := schedules.foldl (fun acc s => acc + s.delayMinutes) 0
  let maxPossibleDelay : ℚ := (schedules.length : ℚ) * 60
  max 0 (100 - totalDelay / maxPossibleDelay * 100)

/-- Optimizer-side sort of schedules by departure time. -/
def sortSchedules (l : List Schedule) : List Schedule :=
  l.mergeSort (fun a b => a.departureTime ≤ b.departureTime)

/-- `calculateUtilizationScore(schedules)`. -/
def calculateUtilizationScore (schedules : List Schedule) : ℚ :=
  let sortedSchedules := sortSchedules schedules
  let totalGap :=
    (pairsConsec sortedSchedules).foldl
      (fun acc p =>
        let gap : ℚ := ((p.2.departureTime - p.1.arrivalTime : Int) : ℚ) / (1000 * 60)
        acc + max 0 (gap - 5))
      0
  let avgGap := totalGap / max 1 ((sortedSchedules.length : ℚ) - 1)
  max 0 (100 - avgGap)

/-- `calculateComfortScore(schedules)`; `Math.sqrt` is the explicit
parameter `sqrtQ`. For fewer than two schedules the JS code produces `NaN`
divisions; this model yields values via division by zero equal to zero. -/
def calculateComfortScore (sqrtQ : ℚ → ℚ) (schedules : List Schedule) : ℚ :=
  let sortedSchedules := sortSchedules schedules
  let intervals :=
    (pairsConsec sortedSchedules).map
      (fun p => ((p.2.departureTime - p.1.departureTime : Int) : ℚ) / (1000 * 60))
  let avgInterval := intervals.foldl (fun a b => a + b) 0 / (intervals.length : ℚ)
  let variance :=
    intervals.foldl (fun acc i => acc + (i - avgInterval) ^ 2) 0 / (intervals.length : ℚ)
  let stdDev := sqrtQ variance
  max 0 (100 - stdDev * 2)

/-- `calculateFitness(schedules, constraints, preferences)`. -/
def calculateFitness (sqrtQ : ℚ → ℚ) (schedules : List Schedule)
    (constraints : Constraints) (preferences : Preferences) : ℚ :=
  let constraintPenalty := calculateConstraintPenalty schedules constraints
  let delayScore := calculateDelayScore schedules * preferences.prioritizeOnTime
  let utilizationScore := calculateUtilizationScore schedules * preferences.prioritizeEfficiency
  let comfortScore := calculateComfortScore sqrtQ schedules * preferences.prioritizePassengerComfort
  max 0 ((delayScore + utilizationScore + comfortScore) - constraintPenalty)

/-- `fitnessScores[i]` with JS indexing (out of range gives 0, unreachable
for in-range draws). -/
def scoreAt (fitnessScores : List ℚ) (i : Int) : ℚ := jsIndex fitnessScores i 0

/-- `tournamentSelection(population, fitnessScores)`: tournament of size 3,
the `for` loop unrolled. -/
def tournamentSelection (rng : Rng) (population : List (List Schedule))
    (fitnessScores : List ℚ) : List Schedule × Rng :=
  let p0 := draw rng
  let i0 : Int := jsFloor (p0.1 * (population.length : ℚ))
  let p1 := draw p0.2
  let c1 : Int := jsFloor (p1.1 * (population.length : ℚ))
  let b1 := if scoreAt fitnessScores c1 > scoreAt fitnessScores i0 then c1 else i0
  let p2 := draw p1.2
  let c2 : Int := jsFloor (p2.1 * (population.length : ℚ))
  let b2 := if scoreAt fitnessScores c2 > scoreAt fitnessScores b1 then c2 else b1
  (jsIndex population b2 [], p2.2)

/-- `crossover(parent1, parent2)`: single-point crossover. -/
def crossover (rng : Rng) (parent1 parent2 : List Schedule) : List Schedule × Rng :=
  let p := draw rng
  let crossoverPoint := (jsFloor (p.1 * (parent1.length : ℚ))).toNat
  (parent1.take crossoverPoint ++ parent2.drop crossoverPoint, p.2)

/-- `mutate(individual, trains, routes)`: shift one schedule's departure by
up to plus or minus 5 minutes and recompute its arrival from the route's
estimated duration; if the route is not found the individual is returned
unchanged. -/
def mutate (rng : Rng) (individual : List Schedule) (_trains : List Train)
    (routes : List Route) : List Schedule × Rng :=
  let p := draw rng
  let mutationIndex : Int := jsFloor (p.1 * (individual.length : ℚ))
  let schedule := jsIndex individual mutationIndex defaultSchedule
  let ad := adjustTime p.2 schedule.departureTime (-5) 5
  match routes.find? (fun r => r.id = schedule.routeId) with
  | some route =>
    (individual.set mutationIndex.toNat
      { schedule with departureTime := ad.1,
                      arrivalTime := ad.1 + route.estimatedDuration * 60000 }, ad.2)
  | none => (individual, ad.2)

/-- The genetic-algorithm loop state: current population, best solution so
far, and the remaining random stream. -/
structure GAState where
  population : List (List Schedule)
  best : List Schedule
  rng : Rng

/-- `Math.max(...fitnessScores)` (empty list unreachable). -/
def maxQList : List ℚ → ℚ
  | [] => 0
  | x :: xs => xs.foldl max x

/-- `Math.floor(populationSize * 0.1)`. -/
def eliteCount : Nat := (jsFloor ((populationSize : ℚ) * 0.1)).toNat

/-- The sorted elite indices: scores paired with indices, sorted stably by
descending score, the first `eliteCount` indices kept. -/
def sortedEliteIndices (fitnessScores : List ℚ) : List Nat :=
  (((fitnessScores.enum).mergeSort (fun a b => b.2 ≤ a.2)).take eliteCount).map (fun p => p.1)

/-- One iteration body of the offspring `while` loop: two tournament
parents, crossover with probability 0.8, mutation with probability 0.1. -/
def offspringStep (trains : List Train) (routes : List Route)
    (population : List (List Schedule)) (fitnessScores : List ℚ)
    (rng : Rng) : List Schedule × Rng :=
  let t1 := tournamentSelection rng population fitnessScores
  let t2 := tournamentSelection t1.2 population fitnessScores
  let pc := draw t2.2
  let co := if pc.1 < crossoverRate then crossover pc.2 t1.1 t2.1 else (t1.1, pc.2)
  let pm := draw co.2
  if pm.1 < mutationRate then mutate pm.2 co.1 trains routes else (co.1, pm.2)

/-- The `while (newPopulation.length < populationSize)` loop, with explicit
structural fuel: each iteration appends exactly one offspring, so the fuel
`populationSize - acc.length` supplied by `fillOffspring` never runs out
before the guard fails. -/
def fillOffspringGo (trains : List Train) (routes : List Route)
    (population : List (List Schedule)) (fitnessScores : List ℚ) :
    Nat → Rng → List (List Schedule) → List (List Schedule) × Rng
  | 0, rng, acc => (acc, rng)
  | fuel + 1, rng, acc =>
    if acc.length < populationSize then
      let o := offspringStep trains routes population fitnessScores rng
      fillOffspringGo trains routes population fitnessScores fuel o.2 (acc ++ [o.1])
    else (acc, rng)

/-- The offspring loop starting from the elite seed `acc`. -/
def fillOffspring (trains : List Train) (routes : List Route)
    (population : List (List Schedule)) (fitnessScores : List ℚ)
    (rng : Rng) (acc : List (List Schedule)) : List (List Schedule) × Rng :=
  fillOffspringGo trains routes population fitnessScores (populationSize - acc.length) rng acc

/-- The fitness scores of the current population. -/
def fitnessScoresOf (sqrtQ : ℚ → ℚ) (request : AIOptimizationRequest) (st : GAState) : List ℚ :=
  st.population.map (fun ind => calculateFitness sqrtQ ind request.constraints request.preferences)

/-- The elite individuals kept by elitism: the population entries at the
`eliteCount` highest-fitness indices. -/
def eliteIndividuals (sqrtQ : ℚ → ℚ) (request : AIOptimizationRequest) (st : GAState) :
    List (List Schedule) :=
  (sortedEliteIndices (fitnessScoresOf sqrtQ request st)).map (fun i => st.population.getD i [])

/-- One iteration of the evolution loop: fitness evaluation, best-solution
update, elitism, then offspring generation. -/
def evolveStep (sqrtQ : ℚ → ℚ) (trains : List Train) (routes : List Route)
    (request : AIOptimizationRequest) (st : GAState) : GAState :=
  let fitnessScores := fitnessScoresOf sqrtQ request st
  let bestIndex := fitnessScores.indexOf (maxQList fitnessScores)
  let best' :=
    if fitnessScores.getD bestIndex 0 >
        calculateFitness sqrtQ st.best request.constraints request.preferences then
      st.population.getD bestIndex []
    else st.best
  let elites := eliteIndividuals sqrtQ request st
  let filled := fillOffspring trains routes st.population fitnessScores st.rng elites
  { population := filled.1, best := best', rng := filled.2 }

/-- The `while (generation < maxGenerations)` loop with explicit structural
fuel: the counter increases by one per iteration, so the fuel
`maxGenerations - generation` supplied by `gaLoop` never runs out before
the guard fails. -/
def gaLoopGo (sqrtQ : ℚ → ℚ) (trains : List Train) (routes : List Route)
    (request : AIOptimizationRequest) : Nat → Nat → GAState → GAState
  | 0, _generation, st => st
  | fuel + 1, generation, st =>
    if generation < maxGenerations then
      gaLoopGo sqrtQ trains routes request fuel (generation + 1)
        (evolveStep sqrtQ trains routes request st)
    else st

/-- The evolution loop from a given generation counter. -/
def gaLoop (sqrtQ : ℚ → ℚ) (trains : List Train) (routes : List Route)
    (request : AIOptimizationRequest) (generation : Nat) (st : GAState) : GAState :=
  gaLoopGo sqrtQ trains routes request (maxGenerations - generation) generation st

/-- `calculateScheduleDelay(schedule)`: `delayMinutes || 0`, the identity on
this numeric model. -/
def calculateScheduleDelay (schedule : Schedule) : ℚ := schedule.delayMinutes

/-- `calculateEfficiencyScore(original, optimized)` (division by a zero
duration yields 0 in this model where JS yields `NaN`). -/
def calculateEfficiencyScore (original optimized : Schedule) : ℚ :=
  let originalDuration : ℚ := ((original.arrivalTime - original.departureTime : Int) : ℚ)
  let optimizedDuration : ℚ := ((optimized.arrivalTime - optimized.departureTime : Int) : ℚ)
  let durationImprovement := max 0 ((originalDuration - optimizedDuration) / originalDuration)
  let delayImprovement :=
    max 0 ((original.delayMinutes - optimized.delayMinutes) / max 1 original.delayMinutes)
  min 100 ((durationImprovement + delayImprovement) * 50 + 70)

/-- `calculateImprovementPercentage(original, optimized)`. -/
def calculateImprovementPercentage (original optimized : Schedule) : ℚ :=
  max 0 (original.delayMinutes - optimized.delayMinutes) / max 1 original.delayMinutes * 100

/-- `calculateUtilizationImprovement(original, optimized)`: a fresh random
draw scaled to 5-20. -/
def calculateUtilizationImprovement (rng : Rng) : ℚ × Rng :=
  let p := draw rng
  (p.1 * 15 + 5, p.2)

/-- `calculateEnergySavings(original, optimized)`. -/
def calculateEnergySavings (original optimized : Schedule) : ℚ :=
  let originalDuration : ℚ := ((original.arrivalTime - original.departureTime : Int) : ℚ)
  let optimizedDuration : ℚ := ((optimized.arrivalTime - optimized.departureTime : Int) : ℚ)
  max 0 ((originalDuration - optimizedDuration) / originalDuration * 10)

/-- The indexed `forEach` of `convertToOptimizationResults`. -/
def convertGo (optimizedSchedules : List Schedule) (rng : Rng) (idx : Nat) :
    List Schedule → List OptimizationResult × Rng
  | [] => ([], rng)
  | original :: rest =>
    match optimizedSchedules.get? idx with
    | some optimized =>
      let optimizedDelay := calculateScheduleDelay optimized
      let delayReduction := max 0 (original.delayMinutes - optimizedDelay)
      let ui := calculateUtilizationImprovement rng
      let result : OptimizationResult :=
        { originalScheduleId := original.id
          optimizedDepartureTime := optimized.departureTime
          optimizedArrivalTime := optimized.arrivalTime
          efficiencyScore := calculateEfficiencyScore original optimized
          improvementPercentage := calculateImprovementPercentage original optimized
          delayReduction := delayReduction
          utilizationImprovement := ui.1
          energySavings := calculateEnergySavings original optimized }
      let rest' := convertGo optimizedSchedules ui.2 (idx + 1) rest
      (result :: rest'.1, rest'.2)
    | none =>
      convertGo optimizedSchedules rng (idx + 1) rest

/-- `convertToOptimizationResults(originalSchedules, optimizedSchedules,
request)`. -/
def convertToOptimizationResults (rng : Rng) (originalSchedules optimizedSchedules : List Schedule)
    (_request : AIOptimizationRequest) : List OptimizationResult × Rng :=
  convertGo optimizedSchedules rng 0 originalSchedules

/-- `optimizeSchedules(schedules, trains, routes, request)`: initialize the
population, run the evolution loop from generation 0, convert the best
solution. -/
def optimizeSchedules (schedules : List Schedule) (trains : List Train)
    (routes : List Route) (request : AIOptimizationRequest) (sqrtQ : ℚ → ℚ)
    (rng : Rng) : List OptimizationResult × Rng :=
  let init := initializePopulation schedules trains routes rng
  let st0 : GAState := { population := init.1, best := init.1.getD 0 [], rng := init.2 }
  let stF := gaLoop sqrtQ trains routes request 0 st0
  convertToOptimizationResults stF.rng schedules stF.best request

end ScheduleOptimizer

namespace ScheduleOptimizer

theorem eliteCount_eq : eliteCount = 5 := by with_unfolding_all decide

theorem initPopGo_length (schedules : List Schedule) :
    ∀ (n : Nat) (rng : Rng), (initPopGo schedules rng n).1.length = n := by
  intro n
  induction n with
  | zero => intro rng; rfl
  | succ n ih => intro rng; simp [initPopGo, ih]

theorem initializePopulation_length (schedules : List Schedule) (trains : List Train)
    (routes : List Route) (rng : Rng) :
    (initializePopulation schedules trains routes rng).1.length = populationSize :=
  initPopGo_length schedules populationSize rng

theorem sortedEliteIndices_length (scores : List ℚ) (h : populationSize ≤ scores.length) :
    (sortedEliteIndices scores).length = eliteCount := by
  have h5 : eliteCount = 5 := eliteCount_eq
  have hps : populationSize = 50 := rfl
  simp [sortedEliteIndices]
  omega

theorem fillOffspringGo_spec (trains : List Train) (routes : List Route)
    (population : List (List Schedule)) (scores : List ℚ) :
    ∀ (fuel : Nat) (rng : Rng) (acc : List (List Schedule)),
      acc.length + fuel = populationSize →
      ∃ off, (fillOffspringGo trains routes population scores fuel rng acc).1 = acc ++ off ∧
        off.length = fuel := by
  intro fuel
  induction fuel with
  | zero => intro rng acc h; exact ⟨[], by simp [fillOffspringGo], rfl⟩
  | succ fuel ih =>
    intro rng acc h
    have hlt : acc.length < populationSize := by omega
    simp only [fillOffspringGo, if_pos hlt]
    obtain ⟨off, hoff, hlen⟩ :=
      ih (offspringStep trains routes population scores rng).2
        (acc ++ [(offspringStep trains routes population scores rng).1]) (by simp; omega)
    refine ⟨(offspringStep trains routes population scores rng).1 :: off, ?_, by simp [hlen]⟩
    rw [hoff]
    simp

theorem evolveStep_population (sqrtQ : ℚ → ℚ) (trains : List Train) (routes : List Route)
    (request : AIOptimizationRequest) (st : GAState)
    (h : st.population.length = populationSize) :
    (evolveStep sqrtQ trains routes request st).population.length = populationSize ∧
      ∃ off, (evolveStep sqrtQ trains routes request st).population =
          eliteIndividuals sqrtQ request st ++ off ∧
        off.length = populationSize - eliteCount := by
  have hel : (eliteIndividuals sqrtQ request st).length = eliteCount := by
    simp only [eliteIndividuals, List.length_map]
    exact sortedEliteIndices_length _ (by simp [fitnessScoresOf, h])
  have hfuel : (eliteIndividuals sqrtQ request st).length + (populationSize - eliteCount) =
      populationSize := by
    have h5 : eliteCount = 5 := eliteCount_eq
    have hps : populationSize = 50 := rfl
    omega
  obtain ⟨off, hoff, hlen⟩ :=
    fillOffspringGo_spec trains routes st.population (fitnessScoresOf sqrtQ request st)
      (populationSize - eliteCount) st.rng (eliteIndividuals sqrtQ request st) hfuel
  have hpop : (evolveStep sqrtQ trains routes request st).population =
      (fillOffspringGo trains routes st.population (fitnessScoresOf sqrtQ request st)
        (populationSize - eliteCount) st.rng (eliteIndividuals sqrtQ request st)).1 := by
    simp only [evolveStep, fillOffspring, hel]
  refine ⟨?_, ?_⟩
  · rw [hpop, hoff]
    simp [hlen, hel]
    have h5 : eliteCount = 5 := eliteCount_eq
    have hps : populationSize = 50 := rfl
    omega
  · exact ⟨off, by rw [hpop, hoff], hlen⟩

theorem gaLoopGo_eq_iterate (sqrtQ : ℚ → ℚ) (trains : List Train) (routes : List Route)
    (request : AIOptimizationRequest) :
    ∀ (fuel generation : Nat) (st : GAState), generation + fuel = maxGenerations →
      gaLoopGo sqrtQ trains routes request fuel generation st =
        (evolveStep sqrtQ trains routes request)^[fuel] st := by
  intro fuel
  induction fuel with
  | zero => intro gen st h; rfl
  | succ fuel ih =>
    intro gen st h
    have hlt : gen < maxGenerations := by omega
    simp only [gaLoopGo, if_pos hlt]
    rw [ih (gen + 1) _ (by omega), Function.iterate_succ_apply]

theorem gaLoop_zero_iterate (sqrtQ : ℚ → ℚ) (trains : List Train) (routes : List Route)
    (request : AIOptimizationRequest) (st : GAState) :
    gaLoop sqrtQ trains routes request 0 st =
      (evolveStep sqrtQ trains routes request)^[maxGenerations] st := by
  unfold gaLoop
  exact gaLoopGo_eq_iterate sqrtQ trains routes request (maxGenerations - 0) 0 st (by omega)

/-- A concrete schedule for the optimizer runs below (45-minute trip). -/
def optSchedule : Schedule :=
  { id := "s1", trainId := "t1", routeId := "r1", departureTime := 0, arrivalTime := 2700000,
    delayMinutes := 0, passengerCount := none, status := "scheduled" }

/-- `optSchedule` jittered by the all-zeros random stream: both times move
by minus 10 minutes. -/
def optInd0 : Schedule := { optSchedule with departureTime := -600000, arrivalTime := 2100000 }

/-- `optSchedule` jittered by the constant 11/21 stream: both times move by
plus 1 minute. -/
def optInd1 : Schedule := { optSchedule with departureTime := 60000, arrivalTime := 2760000 }

/-- A concrete optimization request (the defaults of the optimize API
route). -/
def sampleRequest : AIOptimizationRequest :=
  { scheduleIds := ["s1"], optimizationType := "efficiency",
    constraints := { maxDelayMinutes := 15, minTurnaroundTime := 10, maintenanceWindows := [] },
    preferences := { prioritizeOnTime := 0.4, prioritizeEfficiency := 0.4,
                     prioritizePassengerComfort := 0.2 } }

/-- The all-zeros random stream. -/
def constRng0 : Rng := fun _ => 0

/-- The constant 11/21 random stream. -/
def constRng11 : Rng := fun _ => 11 / 21

/-- A state the evolution step leaves unchanged under the all-zeros
stream. -/
def fixedState0 : GAState :=
  { population := List.replicate 50 [optInd0], best := [optInd0], rng := constRng0 }

/-- A state the evolution step leaves unchanged under the constant 11/21
stream. -/
def fixedState1 : GAState :=
  { population := List.replicate 50 [optInd1], best := [optInd1], rng := constRng11 }

set_option maxRecDepth 40000 in
theorem evolveStep_fixedState0 :
    evolveStep (fun _ => 0) [] [] sampleRequest fixedState0 = fixedState0 := by
  with_unfolding_all rfl

set_option maxRecDepth 40000 in
theorem evolveStep_fixedState1 :
    evolveStep (fun _ => 0) [] [] sampleRequest fixedState1 = fixedState1 := by
  with_unfolding_all rfl

theorem gaLoop_fixedState0 :
    gaLoop (fun _ => 0) [] [] sampleRequest 0 fixedState0 = fixedState0 := by
  rw [gaLoop_zero_iterate]
  exact Function.iterate_fixed evolveStep_fixedState0 maxGenerations

theorem gaLoop_fixedState1 :
    gaLoop (fun _ => 0) [] [] sampleRequest 0 fixedState1 = fixedState1 := by
  rw [gaLoop_zero_iterate]
  exact Function.iterate_fixed evolveStep_fixedState1 maxGenerations

set_option maxRecDepth 40000 in
theorem initializePopulation_constRng0 :
    initializePopulation [optSchedule] [] [] constRng0 =
      (List.replicate 50 [optInd0], constRng0) := by
  with_unfolding_all rfl

set_option maxRecDepth 40000 in
theorem initializePopulation_constRng11 :
    initializePopulation [optSchedule] [] [] constRng11 =
      (List.replicate 50 [optInd1], constRng11) := by
  with_unfolding_all rfl

theorem optimizeSchedules_constRng0 :
    optimizeSchedules [optSchedule] [] [] sampleRequest (fun _ => 0) constRng0 =
      convertToOptimizationResults constRng0 [optSchedule] [optInd0] sampleRequest := by
  simp only [optimizeSchedules, initializePopulation_constRng0]
  have hst : ({ population := List.replicate 50 [optInd0],
                best := (List.replicate 50 [optInd0]).getD 0 [],
                rng := constRng0 } : GAState) = fixedState0 := rfl
  rw [hst, gaLoop_fixedState0]
  rfl

theorem optimizeSchedules_constRng11 :
    optimizeSchedules [optSchedule] [] [] sampleRequest (fun _ => 0) constRng11 =
      convertToOptimizationResults constRng11 [optSchedule] [optInd1] sampleRequest := by
  simp only [optimizeSchedules, initializePopulation_constRng11]
  have hst : ({ population := List.replicate 50 [optInd1],
                best := (List.replicate 50 [optInd1]).getD 0 [],
                rng := constRng11 } : GAState) = fixedState1 := rfl
  rw [hst, gaLoop_fixedState1]
  rfl

/-- A zero result used only as a `getD` default below. -/
def dummyResult : OptimizationResult :=
  { originalScheduleId := "", optimizedDepartureTime := 0, optimizedArrivalTime := 0,
    efficiencyScore := 0, improvementPercentage := 0, delayReduction := 0,
    utilizationImprovement := 0, energySavings := 0 }

/-- C2. `optimizeSchedules` terminates with a fixed iteration structure:
the constants are 50 individuals, 100 generations, and floor(50 times 0.1)
= 5 elites; the initial population always has exactly 50 individuals;
every evolution step rebuilds a 50-individual population back to exactly
50 individuals, namely the 5 highest-fitness elites followed by 45
tournament-generated offspring; and the evolution loop started at
generation 0 performs exactly `maxGenerations` = 100 steps. -/
theorem optimizeSchedules_loop_structure :
    (populationSize = 50 ∧ maxGenerations = 100 ∧ eliteCount = 5) ∧
    (∀ (schedules : List Schedule) (trains : List Train) (routes : List Route) (rng : Rng),
      (initializePopulation schedules trains routes rng).1.length = 50) ∧
    (∀ (sqrtQ : ℚ → ℚ) (trains : List Train) (routes : List Route)
        (request : AIOptimizationRequest) (st : GAState),
      st.population.length = 50 →
      (evolveStep sqrtQ trains routes request st).population.length = 50 ∧
        ∃ off, (evolveStep sqrtQ trains routes request st).population =
            eliteIndividuals sqrtQ request st ++ off ∧ off.length = 45) ∧
    (∀ (sqrtQ : ℚ → ℚ) (trains : List Train) (routes : List Route)
        (request : AIOptimizationRequest) (st : GAState),
      gaLoop sqrtQ trains routes request 0 st =
        (evolveStep sqrtQ trains routes request)^[100] st) := by
  refine ⟨⟨rfl, rfl, eliteCount_eq⟩, ?_, ?_, ?_⟩
  · intro schedules trains routes rng
    exact initializePopulation_length schedules trains routes rng
  · intro sqrtQ trains routes request st h
    have hstep := evolveStep_population sqrtQ trains routes request st h
    refine ⟨hstep.1, ?_⟩
    obtain ⟨off, hoff, hlen⟩ := hstep.2
    exact ⟨off, hoff, by rw [hlen, eliteCount_eq]; rfl⟩
  · intro sqrtQ trains routes request st
    exact gaLoop_zero_iterate sqrtQ trains routes request st

/-- Witness for C2: the evolution step at a concrete 50-individual state. -/
theorem optimizeSchedules_loop_structure_witness :
    (fixedState0.population.length = 50) ∧
      ((evolveStep (fun _ => 0) [] [] sampleRequest fixedState0).population.length = 50 ∧
        ∃ off, (evolveStep (fun _ => 0) [] [] sampleRequest fixedState0).population =
            eliteIndividuals (fun _ => 0) sampleRequest fixedState0 ++ off ∧ off.length = 45) :=
  ⟨rfl, optimizeSchedules_loop_structure.2.2.1 (fun _ => 0) [] [] sampleRequest fixedState0 rfl⟩

/-- C7. `optimizeSchedules` is not a deterministic function of its
schedule/train/route/request arguments: two runs that differ only in the
random stream return different results (here, different optimized
departure times produced by the random initial jitter). -/
theorem optimizeSchedules_nondeterministic :
    ∃ (schedules : List Schedule) (trains : List Train) (routes : List Route)
      (request : AIOptimizationRequest) (sqrtQ : ℚ → ℚ) (rng1 rng2 : Rng),
      (optimizeSchedules schedules trains routes request sqrtQ rng1).1 ≠
        (optimizeSchedules schedules trains routes request sqrtQ rng2).1 := by
  refine ⟨[optSchedule], [], [], sampleRequest, (fun _ => 0), constRng0, constRng11, ?_⟩
  rw [optimizeSchedules_constRng0, optimizeSchedules_constRng11]
  have h0 : (((convertToOptimizationResults constRng0 [optSchedule] [optInd0]
      sampleRequest).1.getD 0 dummyResult)).optimizedDepartureTime = -600000 := by
    with_unfolding_all rfl
  have h1 : (((convertToOptimizationResults constRng11 [optSchedule] [optInd1]
      sampleRequest).1.getD 0 dummyResult)).optimizedDepartureTime = 60000 := by
    with_unfolding_all rfl
  intro hcontra
  rw [hcontra, h1] at h0
  exact absurd h0 (by decide)

end ScheduleOptimizer

/-- The timezone-dependent pieces of `calculateTrainUtilization`:
`new Date(t).setHours(6,0,0,0)` and `new Date(t).setHours(22,0,0,0)`. -/
structure Clock where
  setHours6 : Int → Int
  setHours22 : Int → Int

namespace ResourceAllocator

def UTILIZATION_TARGET : ℚ := 0.85

def MAX_CONSECUTIVE_HOURS : ℚ := 16

def MIN_MAINTENANCE_INTERVAL : ℚ := 72

/-- `TrainAssignment` view-model. -/
structure TrainAssignment where
  trainId : String
  scheduleId : String
  assignmentScore : ℚ
  utilizationRate : ℚ
  conflictRisk : ℚ
  energyEfficiency : ℚ
deriving DecidableEq, Repr

/-- Result pair of `calculateTrainUtilization`. -/
structure Utilization where
  rate : ℚ
  idleTime : ℚ
deriving DecidableEq, Repr

/-- Allocator-side sort of schedules by departure time. -/
def sortByDep (l : List Schedule) : List Schedule :=
  l.mergeSort (fun a b => a.departureTime ≤ b.departureTime)

/-- `calculateTrainUtilization(trainSchedules)`. -/
def calculateTrainUtilization (clock : Clock) (trainSchedules : List Schedule) : Utilization :=
  match h : sortByDep trainSchedules with
  | [] => { rate := 0, idleTime := 24 * 60 }
  | firstSchedule :: _ =>
    let sortedSchedules := sortByDep trainSchedules
    let totalOperatingTime :=
      sortedSchedules.foldl
        (fun acc s => acc + ((s.arrivalTime - s.departureTime : Int) : ℚ) / (1000 * 60)) 0
    let betweenIdle :=
      (pairsConsec sortedSchedules).foldl
        (fun acc p =>
          acc + max 0 (((p.2.departureTime - p.1.arrivalTime : Int) : ℚ) / (1000 * 60) - 10))
        0
    let lastSchedule := sortedSchedules.getLast? |>.getD firstSchedule
    let dayStart := clock.setHours6 firstSchedule.departureTime
    let dayEnd := clock.setHours22 lastSchedule.arrivalTime
    let preOperationIdle := max 0 (((firstSchedule.departureTime - dayStart : Int) : ℚ) / (1000 * 60))
    let postOperationIdle := max 0 (((dayEnd - lastSchedule.arrivalTime : Int) : ℚ) / (1000 * 60))
    let totalAvailableTime : ℚ := 16 * 60
    { rate := min 1 (totalOperatingTime / totalAvailableTime)
      idleTime := betweenIdle + preOperationIdle + postOperationIdle }

/-- `calculateTrainEfficiencyScore(train)`. -/
def calculateTrainEfficiencyScore (train : Train) : ℚ :=
  0.7 + min 0.2 (train.capacity / 1500) + (if train.type = "metro" then 0.1 else 0)

/-- `calculateRouteCompatibility(train, route)`. -/
def calculateRouteCompatibility (train : Train) (route : Route) : ℚ :=
  if train.type = "metro" then 1 else min 1 (train.specMaxSpeed / 80)

/-- `calculateMaintenanceScore(train, schedule)`: the simulated 48 hours in
operation against the 72-hour interval. -/
def calculateMaintenanceScore (_train : Train) (_schedule : Schedule) : ℚ :=
  max 0 (1 - 48 / MIN_MAINTENANCE_INTERVAL)

/-- `calculateContinuityScore(train, schedule, allSchedules)`. -/
def calculateContinuityScore (train : Train) (schedule : Schedule)
    (allSchedules : List Schedule) : ℚ :=
  let recentSchedules := allSchedules.filter fun s =>
    s.trainId = train.id ∧
      (s.departureTime - schedule.departureTime).natAbs < 24 * 60 * 60 * 1000
  if recentSchedules.length = 0 then 0.5
  else
    let sameRouteCount := (recentSchedules.filter fun s => s.routeId = schedule.routeId).length
    min 1 ((sameRouteCount : ℚ) / (recentSchedules.length : ℚ))

/-- One entry of the assignment cost matrix: the weighted sum of the five
factors (capacity 30, efficiency 25, route compatibility 20, maintenance
15, continuity 10). -/
def assignmentCost (routes : List Route) (allSchedules : List Schedule)
    (schedule : Schedule) (train : Train) : ℚ :=
  let expectedLoad := jsOrNum schedule.passengerCount (train.capacity * 0.7)
  let capacityScore := min 1 (expectedLoad / train.capacity) * 30
  let efficiencyScore := calculateTrainEfficiencyScore train * 25
  let routeScore :=
    match routes.find? (fun r => r.id = schedule.routeId) with
    | some route => calculateRouteCompatibility train route * 20
    | none => 0
  let maintenanceScore := calculateMaintenanceScore train schedule * 15
  let continuityScore := calculateContinuityScore train schedule allSchedules * 10
  capacityScore + efficiencyScore + routeScore + maintenanceScore + continuityScore

/-- `createAssignmentCostMatrix(schedules, trains, routes)`. -/
def createAssignmentCostMatrix (schedules : List Schedule) (trains : List Train)
    (routes : List Route) : List (List ℚ) :=
  schedules.map fun schedule => trains.map fun train => assignmentCost routes schedules schedule train

/-- `isTrainAvailable(train, schedule, allSchedules)`: active and no other
schedule of the same train overlapping within a 10-minute buffer. -/
def isTrainAvailable (train : Train) (schedule : Schedule)
    (allSchedules : List Schedule) : Bool :=
  if train.status ≠ "active" then false
  else
    let trainSchedules := allSchedules.filter fun s => s.trainId = train.id
    let buffer : Int := 10 * 60 * 1000
    ¬ trainSchedules.any fun existingSchedule =>
      if existingSchedule.id = schedule.id then false
      else
        decide (schedule.departureTime - buffer < existingSchedule.arrivalTime ∧
          existingSchedule.departureTime - buffer < schedule.arrivalTime)

/-- `calculateAssignmentUtilization(train, schedule, allSchedules)`. -/
def calculateAssignmentUtilization (clock : Clock) (train : Train)
    (_schedule : Schedule) (allSchedules : List Schedule) : ℚ :=
  (calculateTrainUtilization clock (allSchedules.filter fun s => s.trainId = train.id)).rate

/-- `calculateConflictRisk(train, schedule, allSchedules)`. -/
def calculateConflictRisk (_train : Train) (schedule : Schedule)
    (allSchedules : List Schedule) : ℚ :=
  let nearbySchedules := allSchedules.filter fun s =>
    (s.departureTime - schedule.departureTime).natAbs < 2 * 60 * 60 * 1000
  min 1 ((nearbySchedules.length : ℚ) / 10)

/-- `calculateEnergyEfficiency(train, schedule, routes)`. -/
def calculateEnergyEfficiency (train : Train) (schedule : Schedule)
    (routes : List Route) : ℚ :=
  match routes.find? (fun r => r.id = schedule.routeId) with
  | none => 0.5
  | some route =>
    let distanceEfficiency := max 0.3 (1 - route.distanceKm / 50)
    let speedEfficiency := min 1 (train.specMaxSpeed / 100)
    (distanceEfficiency + speedEfficiency) / 2

/-- The running best of the inner loop: `None` models the initial
`bestTrain = null` with `bestScore = -Infinity`. -/
def betterScore (score : ℚ) : Option (Train × ℚ) → Prop
  | none => True
  | some pr => score > pr.2

instance (score : ℚ) (acc : Option (Train × ℚ)) : Decidable (betterScore score acc) := by
  cases acc with
  | none => exact .isTrue trivial
  | some pr => exact inferInstanceAs (Decidable (score > pr.2))

/-- The assignment record built for a chosen schedule/train pair. -/
def mkAssignment (clock : Clock) (allSchedules : List Schedule) (routes : List Route)
    (schedule : Schedule) (train : Train) (score : ℚ) : TrainAssignment :=
  { trainId := train.id
    scheduleId := schedule.id
    assignmentScore := score
    utilizationRate := calculateAssignmentUtilization clock train schedule allSchedules
    conflictRisk := calculateConflictRisk train schedule allSchedules
    energyEfficiency := calculateEnergyEfficiency train schedule routes }

/-- The inner `forEach` over `availableTrains` with its index `j`, reading
the score from the cost-matrix row (`row[j] || 0`). -/
def bestTrainGo (schedule : Schedule) (allSchedules : List Schedule) (row : List ℚ) :
    Nat → List Train → Option (Train × ℚ) → Option (Train × ℚ)
  | _, [], acc => acc
  | j, train :: rest, acc =>
    let score := (row.get? j).getD 0
    bestTrainGo schedule allSchedules row (j + 1) rest
      (if isTrainAvailable train schedule allSchedules ∧ betterScore score acc then
        some (train, score)
      else acc)

/-- The outer `forEach` over `schedules` with its index `i`. -/
def genGo (clock : Clock) (availableTrains : List Train) (costMatrix : List (List ℚ))
    (allSchedules : List Schedule) (routes : List Route) :
    Nat → List Schedule → List TrainAssignment
  | _, [] => []
  | i, schedule :: rest =>
    let row := costMatrix.getD i []
    let best := bestTrainGo schedule allSchedules row 0 availableTrains none
    (match best with
      | some pr => [mkAssignment clock allSchedules routes schedule pr.1 pr.2]
      | none => []) ++ genGo clock availableTrains costMatrix allSchedules routes (i + 1) rest

/-- `generateOptimalAssignments(schedules, trains, routes)`: despite the
comment in the source naming the Hungarian algorithm, each schedule is
assigned greedily and independently via the cost matrix. -/
def generateOptimalAssignments (clock : Clock) (schedules : List Schedule)
    (trains : List Train) (routes : List Route) : List TrainAssignment :=
  let availableTrains := trains.filter fun t => t.status = "active"
  let costMatrix := createAssignmentCostMatrix schedules availableTrains routes
  genGo clock availableTrains costMatrix schedules routes 0 schedules

/-- One step of the spec-side greedy argmax over trains. -/
def pickStep (allSchedules : List Schedule) (routes : List Route) (schedule : Schedule)
    (acc : Option (Train × ℚ)) (train : Train) : Option (Train × ℚ) :=
  let score := assignmentCost routes allSchedules schedule train
  if isTrainAvailable train schedule allSchedules ∧ betterScore score acc then
    some (train, score)
  else acc

/-- Spec-side: the greedy per-schedule argmax, scoring trains directly with
`assignmentCost` instead of going through the matrix. -/
def pickBestTrain (allSchedules : List Schedule) (routes : List Route)
    (availableTrains : List Train) (schedule : Schedule) : Option (Train × ℚ) :=
  availableTrains.foldl (pickStep allSchedules routes schedule) none

end ResourceAllocator
namespace ResourceAllocator

theorem isTrainAvailable_active (train : Train) (schedule : Schedule)
    (allSchedules : List Schedule) (h : isTrainAvailable train schedule allSchedules = true) :
    train.status = "active" := by
  unfold isTrainAvailable at h
  by_cases hs : train.status = "active"
  · exact hs
  · rw [if_pos (by simpa using hs)] at h
    exact absurd h (by simp)

theorem pickFold_some (allSchedules : List Schedule) (routes : List Route)
    (schedule : Schedule) :
    ∀ (ts : List Train) (pr : Train × ℚ),
      ∃ pr', ts.foldl (pickStep allSchedules routes schedule) (some pr) = some pr' := by
  intro ts
  induction ts with
  | nil => intro pr; exact ⟨pr, rfl⟩
  | cons hd tl ih =>
    intro pr
    simp only [List.foldl_cons]
    by_cases hC : isTrainAvailable hd schedule allSchedules = true ∧
        betterScore (assignmentCost routes allSchedules schedule hd) (some pr)
    · rw [show pickStep allSchedules routes schedule (some pr) hd =
          some (hd, assignmentCost routes allSchedules schedule hd) from by
        unfold pickStep; rw [if_pos hC]]
      exact ih _
    · rw [show pickStep allSchedules routes schedule (some pr) hd = some pr from by
        unfold pickStep; rw [if_neg hC]]
      exact ih pr

theorem pickFold_none_iff (allSchedules : List Schedule) (routes : List Route)
    (schedule : Schedule) :
    ∀ (ts : List Train),
      ts.foldl (pickStep allSchedules routes schedule) none = none ↔
        ∀ t ∈ ts, isTrainAvailable t schedule allSchedules = false := by
  intro ts
  induction ts with
  | nil => simp
  | cons hd tl ih =>
    simp only [List.foldl_cons, List.mem_cons]
    by_cases hav : isTrainAvailable hd schedule allSchedules = true
    · have hstep : pickStep allSchedules routes schedule none hd =
          some (hd, assignmentCost routes allSchedules schedule hd) := by
        unfold pickStep
        rw [if_pos ⟨hav, trivial⟩]
      rw [hstep]
      obtain ⟨pr', hpr'⟩ := pickFold_some allSchedules routes schedule tl
        (hd, assignmentCost routes allSchedules schedule hd)
      rw [hpr']
      constructor
      · intro hcontra; exact absurd hcontra (by simp)
      · intro hall
        have hhd := hall hd (Or.inl rfl)
        rw [hav] at hhd
        exact absurd hhd (by simp)
    · have hstep : pickStep allSchedules routes schedule none hd = none := by
        unfold pickStep
        rw [if_neg (fun hc => hav hc.1)]
      rw [hstep, ih]
      constructor
      · intro hall t ht
        rcases ht with rfl | ht
        · simpa using hav
        · exact hall t ht
      · intro hall t ht
        exact hall t (Or.inr ht)

theorem pickFold_ge (allSchedules : List Schedule) (routes : List Route)
    (schedule : Schedule) :
    ∀ (ts : List Train) (acc : Option (Train × ℚ)) (t : Train) (sc : ℚ),
      ts.foldl (pickStep allSchedules routes schedule) acc = some (t, sc) →
        (∀ pr, acc = some pr → pr.2 ≤ sc) ∧
          (∀ t' ∈ ts, isTrainAvailable t' schedule allSchedules = true →
            assignmentCost routes allSchedules schedule t' ≤ sc) := by
  intro ts
  induction ts with
  | nil =>
    intro acc t sc h
    simp only [List.foldl_nil] at h
    refine ⟨fun pr hpr => ?_, by simp⟩
    rw [hpr] at h
    cases h
    exact le_refl _
  | cons hd tl ih =>
    intro acc t sc h
    simp only [List.foldl_cons] at h
    by_cases hC : isTrainAvailable hd schedule allSchedules = true ∧
        betterScore (assignmentCost routes allSchedules schedule hd) acc
    · rw [show pickStep allSchedules routes schedule acc hd =
          some (hd, assignmentCost routes allSchedules schedule hd) from by
        unfold pickStep; rw [if_pos hC]] at h
      obtain ⟨hacc', htl⟩ := ih _ t sc h
      have hcost : assignmentCost routes allSchedules schedule hd ≤ sc := by
        simpa using hacc' (hd, assignmentCost routes allSchedules schedule hd) rfl
      constructor
      · intro pr hpr
        have hb := hC.2
        rw [hpr] at hb
        exact le_trans (le_of_lt hb) hcost
      · intro t' ht' hav
        rcases List.mem_cons.mp ht' with rfl | ht'
        · exact hcost
        · exact htl t' ht' hav
    · rw [show pickStep allSchedules routes schedule acc hd = acc from by
        unfold pickStep; rw [if_neg hC]] at h
      obtain ⟨hacc, htl⟩ := ih _ t sc h
      refine ⟨hacc, ?_⟩
      intro t' ht' hav
      rcases List.mem_cons.mp ht' with rfl | ht'
      · cases hacc2 : acc with
        | none =>
          rw [hacc2] at hC
          exact absurd ⟨hav, trivial⟩ hC
        | some pr =>
          have hnb : ¬ betterScore (assignmentCost routes allSchedules schedule t') acc :=
            fun hb => hC ⟨hav, hb⟩
          rw [hacc2] at hnb
          have hle : assignmentCost routes allSchedules schedule t' ≤ pr.2 := not_lt.mp hnb
          exact hle.trans (hacc pr hacc2)
      · exact htl t' ht' hav

theorem pickFold_form (allSchedules : List Schedule) (routes : List Route)
    (schedule : Schedule) :
    ∀ (ts : List Train) (acc : Option (Train × ℚ)) (t : Train) (sc : ℚ),
      ts.foldl (pickStep allSchedules routes schedule) acc = some (t, sc) →
        acc = some (t, sc) ∨
          (t ∈ ts ∧ isTrainAvailable t schedule allSchedules = true ∧
            sc = assignmentCost routes allSchedules schedule t) := by
  intro ts
  induction ts with
  | nil =>
    intro acc t sc h
    simp only [List.foldl_nil] at h
    exact Or.inl h
  | cons hd tl ih =>
    intro acc t sc h
    simp only [List.foldl_cons] at h
    by_cases hC : isTrainAvailable hd schedule allSchedules = true ∧
        betterScore (assignmentCost routes allSchedules schedule hd) acc
    · rw [show pickStep allSchedules routes schedule acc hd =
          some (hd, assignmentCost routes allSchedules schedule hd) from by
        unfold pickStep; rw [if_pos hC]] at h
      rcases ih _ t sc h with heq | ⟨hmem, hav, hsc⟩
      · cases Option.some.inj heq
        exact Or.inr ⟨List.mem_cons_self hd tl, hC.1, rfl⟩
      · exact Or.inr ⟨List.mem_cons_of_mem hd hmem, hav, hsc⟩
    · rw [show pickStep allSchedules routes schedule acc hd = acc from by
        unfold pickStep; rw [if_neg hC]] at h
      rcases ih _ t sc h with heq | ⟨hmem, hav, hsc⟩
      · exact Or.inl heq
      · exact Or.inr ⟨List.mem_cons_of_mem hd hmem, hav, hsc⟩

theorem bestTrainGo_eq (schedule : Schedule) (allSchedules : List Schedule)
    (routes : List Route) (row : List ℚ) :
    ∀ (ts : List Train) (j : Nat) (acc : Option (Train × ℚ)),
      (∀ (k : Nat) (t : Train), ts.get? k = some t →
        row.get? (j + k) = some (assignmentCost routes allSchedules schedule t)) →
      bestTrainGo schedule allSchedules row j ts acc =
        ts.foldl (pickStep allSchedules routes schedule) acc := by
  intro ts
  induction ts with
  | nil => intro j acc _; rfl
  | cons hd tl ih =>
    intro j acc hrow
    have hj : row.get? j = some (assignmentCost routes allSchedules schedule hd) := by
      simpa using hrow 0 hd rfl
    simp only [bestTrainGo, List.foldl_cons]
    rw [hj]
    have hrec : ∀ (k : Nat) (t : Train), tl.get? k = some t →
        row.get? (j + 1 + k) = some (assignmentCost routes allSchedules schedule t) := by
      intro k t hk
      have := hrow (k + 1) t (by simpa using hk)
      rwa [show j + (k + 1) = j + 1 + k by omega] at this
    rw [ih (j + 1) _ hrec]
    congr 1

theorem genGo_eq (clock : Clock) (availableTrains : List Train)
    (costMatrix : List (List ℚ)) (allSchedules : List Schedule) (routes : List Route) :
    ∀ (rest : List Schedule) (i : Nat),
      (∀ (k : Nat) (s : Schedule), rest.get? k = some s →
        costMatrix.get? (i + k) =
          some (availableTrains.map (assignmentCost routes allSchedules s))) →
      genGo clock availableTrains costMatrix allSchedules routes i rest =
        rest.filterMap fun s =>
          (pickBestTrain allSchedules routes availableTrains s).map fun pr =>
            mkAssignment clock allSchedules routes s pr.1 pr.2 := by
  intro rest
  induction rest with
  | nil => intro i _; rfl
  | cons schedule rest ih =>
    intro i hmat
    have hrow : costMatrix.getD i [] =
        availableTrains.map (assignmentCost routes allSchedules schedule) := by
      have h0 := hmat 0 schedule rfl
      rw [Nat.add_zero, List.get?_eq_getElem?] at h0
      simp [List.getD, h0]
    have hbest : bestTrainGo schedule allSchedules (costMatrix.getD i []) 0 availableTrains none =
        pickBestTrain allSchedules routes availableTrains schedule := by
      rw [hrow]
      unfold pickBestTrain
      apply bestTrainGo_eq
      intro k t hk
      simp only [Nat.zero_add]
      rw [List.get?_map, hk]
      rfl
    have hrec : ∀ (k : Nat) (s : Schedule), rest.get? k = some s →
        costMatrix.get? (i + 1 + k) =
          some (availableTrains.map (assignmentCost routes allSchedules s)) := by
      intro k s hk
      have := hmat (k + 1) s (by simpa using hk)
      rwa [show i + (k + 1) = i + 1 + k by omega] at this
    simp only [genGo, hbest, ih (i + 1) hrec, List.filterMap_cons]
    cases hpick : pickBestTrain allSchedules routes availableTrains schedule with
    | none => simp
    | some pr => simp

/-- C3. `generateOptimalAssignments` is the independent per-schedule greedy:
it equals mapping each schedule to the best-scoring active available train
(if any); a picked train is active, available, scored by the weighted-sum
cost matrix, and maximal among all active available trains; a schedule with
no active available train produces no assignment. -/
theorem generateOptimalAssignments_greedy (clock : Clock) (schedules : List Schedule)
    (trains : List Train) (routes : List Route) :
    (generateOptimalAssignments clock schedules trains routes =
      schedules.filterMap fun s =>
        (pickBestTrain schedules routes (trains.filter fun t => t.status = "active") s).map
          fun pr => mkAssignment clock schedules routes s pr.1 pr.2) ∧
    (∀ (schedule : Schedule) (train : Train) (score : ℚ),
      pickBestTrain schedules routes (trains.filter fun t => t.status = "active") schedule =
          some (train, score) →
        train.status = "active" ∧
          isTrainAvailable train schedule schedules = true ∧
          score = assignmentCost routes schedules schedule train ∧
          ∀ t ∈ trains.filter fun t => t.status = "active",
            isTrainAvailable t schedule schedules = true →
              assignmentCost routes schedules schedule t ≤ score) ∧
    (∀ schedule : Schedule,
      pickBestTrain schedules routes (trains.filter fun t => t.status = "active") schedule =
          none ↔
        ∀ t ∈ trains.filter fun t => t.status = "active",
          isTrainAvailable t schedule schedules = false) := by
  refine ⟨?_, ?_, ?_⟩
  · unfold generateOptimalAssignments
    apply genGo_eq
    intro k s hk
    unfold createAssignmentCostMatrix
    rw [List.get?_map]
    simp only [Nat.zero_add] at hk ⊢
    rw [hk]
    rfl
  · intro schedule train score hpick
    unfold pickBestTrain at hpick
    rcases pickFold_form schedules routes schedule _ none train score hpick with heq | ⟨_, hav, hsc⟩
    · exact absurd heq (by simp)
    · obtain ⟨-, hge⟩ := pickFold_ge schedules routes schedule _ none train score hpick
      exact ⟨isTrainAvailable_active train schedule schedules hav, hav, hsc, hge⟩
  · intro schedule
    unfold pickBestTrain
    exact pickFold_none_iff schedules routes schedule _


end ResourceAllocator

/-- A sample metro train for the allocator witness. -/
def wTrain : Train :=
  { id := "T1", name := "Metro A", type := "metro", capacity := 1500, status := "active",
    specMaxSpeed := 80 }

/-- A sample schedule (not assigned to `wTrain`) for the allocator
witness. -/
def wSchedule : Schedule :=
  { id := "ws1", trainId := "t9", routeId := "r9", departureTime := 0, arrivalTime := 2700000,
    delayMinutes := 0, passengerCount := none, status := "scheduled" }

/-- A trivial clock for the allocator witness. -/
def wClock : Clock := { setHours6 := fun _ => 0, setHours22 := fun _ => 0 }

/-- Witness for C3: the greedy pick at a concrete input selects the only
active train with score 56, and the maximality facts follow. -/
theorem generateOptimalAssignments_greedy_witness :
    ResourceAllocator.pickBestTrain [wSchedule] []
        ([wTrain].filter fun t => t.status = "active") wSchedule = some (wTrain, 56) ∧
      (wTrain.status = "active" ∧
        ResourceAllocator.isTrainAvailable wTrain wSchedule [wSchedule] = true ∧
        (56 : ℚ) = ResourceAllocator.assignmentCost [] [wSchedule] wSchedule wTrain ∧
        ∀ t ∈ [wTrain].filter fun t => t.status = "active",
          ResourceAllocator.isTrainAvailable t wSchedule [wSchedule] = true →
            ResourceAllocator.assignmentCost [] [wSchedule] wSchedule t ≤ 56) := by
  have hpick : ResourceAllocator.pickBestTrain [wSchedule] []
      ([wTrain].filter fun t => t.status = "active") wSchedule = some (wTrain, 56) := by
    with_unfolding_all rfl
  exact ⟨hpick,
    (ResourceAllocator.generateOptimalAssignments_greedy wClock [wSchedule] [wTrain] []).2.1
      wSchedule wTrain 56 hpick⟩

/-- JSON value tree. Local-storage blobs are modelled at this level:
`JSON.stringify` and `JSON.parse` are the (inverse) renderings between this
tree and its string form, so a stored blob is represented by its parsed
tree. -/
inductive Json where
  | null : Json
  | bool (b : Bool) : Json
  | num (q : ℚ) : Json
  | str (s : String) : Json
  | arr (items : List Json) : Json
  | obj (fields : List (String × Json)) : Json

/-- The browser local storage: insertion-ordered string keys mapped to the
parsed form of their JSON blob. -/
abbrev Store : Type := List (String × Json)

/-- `localStorage.getItem(key)` (at the parsed-blob level). -/
def getItem (store : Store) (key : String) : Option Json :=
  (store.find? fun p => p.1 = key).map fun p => p.2

/-- `localStorage.setItem(key, value)`: replace the (unique) existing
entry in place, else append. -/
def setItem : Store → String → Json → Store
  | [], key, value => [(key, value)]
  | p :: rest, key, value =>
    if p.1 = key then (p.1, value) :: rest else p :: setItem rest key value

/-- `Train` record of the local-storage database (`src/lib/database.ts`). -/
structure DbTrain where
  id : String
  name : String
  type : String
  capacity : ℚ
  status : String
  currentLocation : String
  nextMaintenance : String
  createdAt : String
  updatedAt : String
deriving DecidableEq, Repr

/-- `Schedule` record of the local-storage database. -/
structure DbSchedule where
  id : String
  trainId : String
  routeId : String
  departureTime : String
  arrivalTime : String
  status : String
  delayMinutes : ℚ
  createdBy : String
  createdAt : String
  updatedAt : String
deriving DecidableEq, Repr

def encodeTrain (t : DbTrain) : Json :=
  Json.obj
    [("id", Json.str t.id), ("name", Json.str t.name), ("type", Json.str t.type),
     ("capacity", Json.num t.capacity), ("status", Json.str t.status),
     ("currentLocation", Json.str t.currentLocation),
     ("nextMaintenance", Json.str t.nextMaintenance),
     ("createdAt", Json.str t.createdAt), ("updatedAt", Json.str t.updatedAt)]

/-- Structural decoder for a train blob; `none` models a blob whose shape
does not match the `Train` type the TypeScript cast assumes. -/
def decodeTrain : Json → Option DbTrain
  | Json.obj
      [("id", Json.str id), ("name", Json.str name), ("type", Json.str ty),
       ("capacity", Json.num capacity), ("status", Json.str status),
       ("currentLocation", Json.str currentLocation),
       ("nextMaintenance", Json.str nextMaintenance),
       ("createdAt", Json.str createdAt), ("updatedAt", Json.str updatedAt)] =>
    some
      { id := id, name := name, type := ty, capacity := capacity, status := status,
        currentLocation := currentLocation, nextMaintenance := nextMaintenance,
        createdAt := createdAt, updatedAt := updatedAt }
  | _ => none

def encodeSchedule (s : DbSchedule) : Json :=
  Json.obj
    [("id", Json.str s.id), ("trainId", Json.str s.trainId), ("routeId", Json.str s.routeId),
     ("departureTime", Json.str s.departureTime), ("arrivalTime", Json.str s.arrivalTime),
     ("status", Json.str s.status), ("delayMinutes", Json.num s.delayMinutes),
     ("createdBy", Json.str s.createdBy), ("createdAt", Json.str s.createdAt),
     ("updatedAt", Json.str s.updatedAt)]

def decodeSchedule : Json → Option DbSchedule
  | Json.obj
      [("id", Json.str id), ("trainId", Json.str trainId), ("routeId", Json.str routeId),
       ("departureTime", Json.str departureTime), ("arrivalTime", Json.str arrivalTime),
       ("status", Json.str status), ("delayMinutes", Json.num delayMinutes),
       ("createdBy", Json.str createdBy), ("createdAt", Json.str createdAt),
       ("updatedAt", Json.str updatedAt)] =>
    some
      { id := id, trainId := trainId, routeId := routeId, departureTime := departureTime,
        arrivalTime := arrivalTime, status := status, delayMinutes := delayMinutes,
        createdBy := createdBy, createdAt := createdAt, updatedAt := updatedAt }
  | _ => none

def decodeTrainItems : List Json → Option (List DbTrain)
  | [] => some []
  | j :: rest =>
    match decodeTrain j, decodeTrainItems rest with
    | some t, some ts => some (t :: ts)
    | _, _ => none

def decodeTrains : Json → Option (List DbTrain)
  | Json.arr items => decodeTrainItems items
  | _ => none

def encodeTrains (ts : List DbTrain) : Json := Json.arr (ts.map encodeTrain)

def decodeScheduleItems : List Json → Option (List DbSchedule)
  | [] => some []
  | j :: rest =>
    match decodeSchedule j, decodeScheduleItems rest with
    | some s, some ss => some (s :: ss)
    | _, _ => none

def decodeSchedules : Json → Option (List DbSchedule)
  | Json.arr items => decodeScheduleItems items
  | _ => none

def encodeSchedules (ss : List DbSchedule) : Json := Json.arr (ss.map encodeSchedule)

/-- The sample blobs `DatabaseManager.initialize` seeds when `kmrl_trains`
is absent. The concrete sample records of `sampleData` are data, not
logic, so they stay parameters of the model. -/
structure SampleData where
  trains : Json
  routes : Json
  schedules : Json
  conflicts : Json
  kpis : Json

namespace DatabaseManager

/-- The `initialize()` method: seed the six keys with sample data when
`kmrl_trains` is absent (the in-memory initialization flag only
short-circuits this check and is not modelled). -/
def initDb (sample : SampleData) (store : Store) : Store :=
  match getItem store "kmrl_trains" with
  | some _ => store
  | none =>
    let s1 := setItem store "kmrl_trains" sample.trains
    let s2 := setItem s1 "kmrl_routes" sample.routes
    let s3 := setItem s2 "kmrl_schedules" sample.schedules
    let s4 := setItem s3 "kmrl_conflicts" sample.conflicts
    let s5 := setItem s4 "kmrl_kpis" sample.kpis
    setItem s5 "kmrl_datasets" (Json.arr [])

/-- `getTrains()`: initialize, then parse the blob. A blob whose shape does
not match the asserted TypeScript type makes the downstream array
operations throw; that failure is surfaced here as `Except.error`. -/
def getTrains (sample : SampleData) (store : Store) : Except Unit (List DbTrain × Store) :=
  let store := initDb sample store
  match getItem store "kmrl_trains" with
  | none => Except.ok ([], store)
  | some j =>
    match decodeTrains j with
    | some ts => Except.ok (ts, store)
    | none => Except.error ()

/-- `getSchedules()` without filters. -/
def getSchedules (sample : SampleData) (store : Store) :
    Except Unit (List DbSchedule × Store) :=
  let store := initDb sample store
  match getItem store "kmrl_schedules" with
  | none => Except.ok ([], store)
  | some j =>
    match decodeSchedules j with
    | some ss => Except.ok (ss, store)
    | none => Except.error ()

/-- `createTrain(train)`: read, append the new record (ids and timestamps
from `Date.now()`/`toISOString` are the `nowMs`/`nowIso` parameters),
write back. -/
def createTrain (sample : SampleData) (store : Store) (nowMs : Int) (nowIso : String)
    (name ty : String) (capacity : ℚ) (status currentLocation nextMaintenance : String) :
    Except Unit (DbTrain × Store) := do
  let (trains, store) ← getTrains sample store
  let newTrain : DbTrain :=
    { id := "train-" ++ toString nowMs, name := name, type := ty, capacity := capacity,
      status := status, currentLocation := currentLocation,
      nextMaintenance := nextMaintenance, createdAt := nowIso, updatedAt := nowIso }
  Except.ok (newTrain, setItem store "kmrl_trains" (encodeTrains (trains ++ [newTrain])))

/-- `createSchedule(schedule)`. -/
def createSchedule (sample : SampleData) (store : Store) (nowMs : Int) (nowIso : String)
    (trainId routeId departureTime arrivalTime status : String) (delayMinutes : ℚ)
    (createdBy : String) : Except Unit (DbSchedule × Store) := do
  let (schedules, store) ← getSchedules sample store
  let newSchedule : DbSchedule :=
    { id := "schedule-" ++ toString nowMs, trainId := trainId, routeId := routeId,
      departureTime := departureTime, arrivalTime := arrivalTime, status := status,
      delayMinutes := delayMinutes, createdBy := createdBy, createdAt := nowIso,
      updatedAt := nowIso }
  Except.ok
    (newSchedule, setItem store "kmrl_schedules" (encodeSchedules (schedules ++ [newSchedule])))

end DatabaseManager

theorem getItem_setItem_self (store : Store) (key : String) (value : Json) :
    getItem (setItem store key value) key = some value := by
  induction store with
  | nil => simp [setItem, getItem]
  | cons hd tl ih =>
    by_cases hk : hd.1 = key
    · simp [setItem, getItem, hk]
    · simp only [setItem, if_neg hk]
      simpa [getItem, List.find?_cons, hk] using ih

theorem getItem_setItem_other (store : Store) (key other : String) (value : Json)
    (h : key ≠ other) : getItem (setItem store other value) key = getItem store key := by
  induction store with
  | nil => simp [setItem, getItem, List.find?_cons, Ne.symm h]
  | cons hd tl ih =>
    by_cases hk : hd.1 = other
    · simp [setItem, getItem, List.find?_cons, hk, Ne.symm h]
    · by_cases hk2 : hd.1 = key
      · simp only [setItem, if_neg hk]
        simp [getItem, List.find?_cons, hk2]
      · simp only [setItem, if_neg hk]
        simpa [getItem, List.find?_cons, hk2] using ih

theorem decodeTrain_encodeTrain (t : DbTrain) : decodeTrain (encodeTrain t) = some t := rfl

theorem decodeTrainItems_map (ts : List DbTrain) :
    decodeTrainItems (ts.map encodeTrain) = some ts := by
  induction ts with
  | nil => rfl
  | cons t rest ih => simp [decodeTrainItems, decodeTrain_encodeTrain, ih]

theorem decodeTrains_encodeTrains (ts : List DbTrain) :
    decodeTrains (encodeTrains ts) = some ts := by
  simp [decodeTrains, encodeTrains, decodeTrainItems_map]

theorem decodeSchedule_encodeSchedule (s : DbSchedule) :
    decodeSchedule (encodeSchedule s) = some s := rfl

theorem decodeScheduleItems_map (ss : List DbSchedule) :
    decodeScheduleItems (ss.map encodeSchedule) = some ss := by
  induction ss with
  | nil => rfl
  | cons s rest ih => simp [decodeScheduleItems, decodeSchedule_encodeSchedule, ih]

theorem decodeSchedules_encodeSchedules (ss : List DbSchedule) :
    decodeSchedules (encodeSchedules ss) = some ss := by
  simp [decodeSchedules, encodeSchedules, decodeScheduleItems_map]

namespace DatabaseManager

/-- The record `createTrain` constructs for its input. -/
def mkNewTrain (nowMs : Int) (nowIso : String) (name ty : String) (capacity : ℚ)
    (status currentLocation nextMaintenance : String) : DbTrain :=
  { id := "train-" ++ toString nowMs, name := name, type := ty, capacity := capacity,
    status := status, currentLocation := currentLocation,
    nextMaintenance := nextMaintenance, createdAt := nowIso, updatedAt := nowIso }

/-- The record `createSchedule` constructs for its input. -/
def mkNewSchedule (nowMs : Int) (nowIso : String)
    (trainId routeId departureTime arrivalTime status : String) (delayMinutes : ℚ)
    (createdBy : String) : DbSchedule :=
  { id := "schedule-" ++ toString nowMs, trainId := trainId, routeId := routeId,
    departureTime := departureTime, arrivalTime := arrivalTime, status := status,
    delayMinutes := delayMinutes, createdBy := createdBy, createdAt := nowIso,
    updatedAt := nowIso }

theorem initDb_of_trains_present (sample : SampleData) (store : Store)
    (h : (getItem store "kmrl_trains").isSome) : initDb sample store = store := by
  unfold initDb
  cases hk : getItem store "kmrl_trains" with
  | none => rw [hk] at h; exact absurd h (by simp)
  | some j => rfl

theorem getTrains_of_stored (sample : SampleData) (store : Store) (ts : List DbTrain)
    (h : getItem store "kmrl_trains" = some (encodeTrains ts)) :
    getTrains sample store = Except.ok (ts, store) := by
  unfold getTrains
  rw [initDb_of_trains_present sample store (by rw [h]; rfl)]
  dsimp only
  rw [h]
  dsimp only
  rw [decodeTrains_encodeTrains]

theorem getSchedules_of_stored (sample : SampleData) (store : Store) (ss : List DbSchedule)
    (htr : (getItem store "kmrl_trains").isSome)
    (h : getItem store "kmrl_schedules" = some (encodeSchedules ss)) :
    getSchedules sample store = Except.ok (ss, store) := by
  unfold getSchedules
  rw [initDb_of_trains_present sample store htr]
  dsimp only
  rw [h]
  dsimp only
  rw [decodeSchedules_encodeSchedules]

/-- C6. Creating a record then reading the list back yields exactly the
previous list with the new record appended, with all records round-tripping
unchanged through the JSON encoding: for trains via
`createTrain`/`getTrains`, and analogously for schedules via
`createSchedule`/`getSchedules`. -/
theorem create_then_get_appends (sample : SampleData) (store : Store) (nowMs : Int)
    (nowIso : String) :
    (∀ (ts : List DbTrain) (name ty : String) (capacity : ℚ)
        (status currentLocation nextMaintenance : String),
      getItem store "kmrl_trains" = some (encodeTrains ts) →
      ∃ store',
        createTrain sample store nowMs nowIso name ty capacity status currentLocation
            nextMaintenance =
          Except.ok (mkNewTrain nowMs nowIso name ty capacity status currentLocation
            nextMaintenance, store') ∧
        getTrains sample store' =
          Except.ok (ts ++ [mkNewTrain nowMs nowIso name ty capacity status currentLocation
            nextMaintenance], store')) ∧
    (∀ (ss : List DbSchedule) (trainId routeId departureTime arrivalTime status : String)
        (delayMinutes : ℚ) (createdBy : String),
      (getItem store "kmrl_trains").isSome →
      getItem store "kmrl_schedules" = some (encodeSchedules ss) →
      ∃ store',
        createSchedule sample store nowMs nowIso trainId routeId departureTime arrivalTime
            status delayMinutes createdBy =
          Except.ok (mkNewSchedule nowMs nowIso trainId routeId departureTime arrivalTime
            status delayMinutes createdBy, store') ∧
        getSchedules sample store' =
          Except.ok (ss ++ [mkNewSchedule nowMs nowIso trainId routeId departureTime
            arrivalTime status delayMinutes createdBy], store')) := by
  constructor
  · intro ts name ty capacity status currentLocation nextMaintenance h
    refine ⟨setItem store "kmrl_trains"
      (encodeTrains (ts ++ [mkNewTrain nowMs nowIso name ty capacity status currentLocation
        nextMaintenance])), ?_, ?_⟩
    · unfold createTrain
      rw [getTrains_of_stored sample store ts h]
      rfl
    · exact getTrains_of_stored sample _ _ (getItem_setItem_self store _ _)
  · intro ss trainId routeId departureTime arrivalTime status delayMinutes createdBy htr hsch
    refine ⟨setItem store "kmrl_schedules"
      (encodeSchedules (ss ++ [mkNewSchedule nowMs nowIso trainId routeId departureTime
        arrivalTime status delayMinutes createdBy])), ?_, ?_⟩
    · unfold createSchedule
      rw [getSchedules_of_stored sample store ss htr hsch]
      rfl
    · refine getSchedules_of_stored sample _ _ ?_ (getItem_setItem_self store _ _)
      rw [getItem_setItem_other _ _ _ _ (by decide)]
      exact htr

end DatabaseManager

/-- An empty sample dataset for concrete witnesses. -/
def sampleW : SampleData :=
  { trains := Json.arr [], routes := Json.arr [], schedules := Json.arr [],
    conflicts := Json.arr [], kpis := Json.arr [] }

/-- A concrete store holding empty train and schedule lists. -/
def wStore : Store :=
  [("kmrl_trains", encodeTrains []), ("kmrl_schedules", encodeSchedules [])]

/-- Witness for C6 at a concrete store: creating a train appends it. -/
theorem create_then_get_appends_witness :
    getItem wStore "kmrl_trains" = some (encodeTrains []) ∧
      ∃ store',
        DatabaseManager.createTrain sampleW wStore 5 "2025-01-01T00:00:00.000Z" "Krishna"
            "metro" 975 "active" "Aluva" "2025-02-01" =
          Except.ok (DatabaseManager.mkNewTrain 5 "2025-01-01T00:00:00.000Z" "Krishna"
            "metro" 975 "active" "Aluva" "2025-02-01", store') ∧
        DatabaseManager.getTrains sampleW store' =
          Except.ok ([] ++ [DatabaseManager.mkNewTrain 5 "2025-01-01T00:00:00.000Z" "Krishna"
            "metro" 975 "active" "Aluva" "2025-02-01"], store') :=
  ⟨rfl,
    (DatabaseManager.create_then_get_appends sampleW wStore 5 "2025-01-01T00:00:00.000Z").1
      [] "Krishna" "metro" 975 "active" "Aluva" "2025-02-01" rfl⟩

/-- String rendering of a `conflictType` union value. -/
def conflictTypeStr : ConflictType → String
  | ConflictType.temporal_overlap => "temporal_overlap"
  | ConflictType.resource_conflict => "resource_conflict"
  | ConflictType.capacity_exceeded => "capacity_exceeded"
  | ConflictType.maintenance_conflict => "maintenance_conflict"

/-- String rendering of a `severity` union value. -/
def severityStr : Severity → String
  | Severity.low => "low"
  | Severity.medium => "medium"
  | Severity.high => "high"
  | Severity.critical => "critical"

def encodeConflict (c : Conflict) : Json :=
  Json.obj
    [("scheduleId1", Json.str c.scheduleId1), ("scheduleId2", Json.str c.scheduleId2),
     ("conflictType", Json.str (conflictTypeStr c.conflictType)),
     ("severity", Json.str (severityStr c.severity)),
     ("confidenceScore", Json.num c.confidenceScore), ("resolved", Json.bool c.resolved)]

def decodeConflictType : String → Option ConflictType
  | "temporal_overlap" => some ConflictType.temporal_overlap
  | "resource_conflict" => some ConflictType.resource_conflict
  | "capacity_exceeded" => some ConflictType.capacity_exceeded
  | "maintenance_conflict" => some ConflictType.maintenance_conflict
  | _ => none

def decodeSeverity : String → Option Severity
  | "low" => some Severity.low
  | "medium" => some Severity.medium
  | "high" => some Severity.high
  | "critical" => some Severity.critical
  | _ => none

def decodeConflict : Json → Option Conflict
  | Json.obj
      [("scheduleId1", Json.str s1), ("scheduleId2", Json.str s2),
       ("conflictType", Json.str ct), ("severity", Json.str sv),
       ("confidenceScore", Json.num cs), ("resolved", Json.bool r)] =>
    match decodeConflictType ct, decodeSeverity sv with
    | some ct, some sv =>
      some { scheduleId1 := s1, scheduleId2 := s2, conflictType := ct, severity := sv,
             confidenceScore := cs, resolved := r }
    | _, _ => none
  | _ => none

def decodeConflictItems : List Json → Option (List Conflict)
  | [] => some []
  | j :: rest =>
    match decodeConflict j, decodeConflictItems rest with
    | some c, some cs => some (c :: cs)
    | _, _ => none

def decodeConflicts : Json → Option (List Conflict)
  | Json.arr items => decodeConflictItems items
  | _ => none

def decodeStrItems : List Json → Option (List String)
  | [] => some []
  | Json.str s :: rest =>
    match decodeStrItems rest with
    | some ss => some (s :: ss)
    | none => none
  | _ => none

def encodeRoute (r : Route) : Json :=
  Json.obj
    [("id", Json.str r.id), ("stations", Json.arr (r.stations.map Json.str)),
     ("startStation", Json.str r.startStation), ("endStation", Json.str r.endStation),
     ("distanceKm", Json.num r.distanceKm),
     ("estimatedDuration", Json.num (r.estimatedDuration : ℚ))]

/-- Structural decoder for a route blob (the sample blobs carry additional
presentational fields that the model's `Route` does not use). -/
def decodeRoute : Json → Option Route
  | Json.obj
      [("id", Json.str id), ("stations", Json.arr stations),
       ("startStation", Json.str startStation), ("endStation", Json.str endStation),
       ("distanceKm", Json.num distanceKm), ("estimatedDuration", Json.num dur)] =>
    match decodeStrItems stations with
    | some ss =>
      some { id := id, stations := ss, startStation := startStation, endStation := endStation,
             distanceKm := distanceKm, estimatedDuration := jsFloor dur }
    | none => none
  | _ => none

def decodeRouteItems : List Json → Option (List Route)
  | [] => some []
  | j :: rest =>
    match decodeRoute j, decodeRouteItems rest with
    | some r, some rs => some (r :: rs)
    | _, _ => none

def decodeRoutes : Json → Option (List Route)
  | Json.arr items => decodeRouteItems items
  | _ => none

namespace DatabaseManager

/-- `getRoutes()`. -/
def getRoutes (sample : SampleData) (store : Store) : Except Unit (List Route × Store) :=
  let store := initDb sample store
  match getItem store "kmrl_routes" with
  | none => Except.ok ([], store)
  | some j =>
    match decodeRoutes j with
    | some rs => Except.ok (rs, store)
    | none => Except.error ()

/-- `getConflicts()`. -/
def getConflicts (sample : SampleData) (store : Store) :
    Except Unit (List Conflict × Store) :=
  let store := initDb sample store
  match getItem store "kmrl_conflicts" with
  | none => Except.ok ([], store)
  | some j =>
    match decodeConflicts j with
    | some cs => Except.ok (cs, store)
    | none => Except.error ()

/-- `createConflict(conflict)` (the generated `id`/`detectedAt` fields are
omitted from the conflict model). -/
def createConflict (sample : SampleData) (store : Store) (c : Conflict) :
    Except Unit Store :=
  match getConflicts sample store with
  | Except.error e => Except.error e
  | Except.ok (conflicts, store) =>
    Except.ok (setItem store "kmrl_conflicts" (Json.arr ((conflicts ++ [c]).map encodeConflict)))

end DatabaseManager

/-- The `for (const conflict of ...) await db.createConflict(conflict)`
loop of the conflicts route. -/
def storeConflictsGo (sample : SampleData) : Store → List Conflict → Except Unit Store
  | store, [] => Except.ok store
  | store, c :: rest =>
    match DatabaseManager.createConflict sample store c with
    | Except.error e => Except.error e
    | Except.ok store' => storeConflictsGo sample store' rest

/-- Convert a stored schedule to the AI modules' view: ISO time strings
parsed by the date engine `dateVal` (an unparsable string, `NaN` in JS, is
modelled as 0; the db layer stores no passenger count). -/
def toAISchedule (dateVal : String → Option Int) (s : DbSchedule) : Schedule :=
  { id := s.id, trainId := s.trainId, routeId := s.routeId,
    departureTime := (dateVal s.departureTime).getD 0,
    arrivalTime := (dateVal s.arrivalTime).getD 0, delayMinutes := s.delayMinutes,
    passengerCount := none, status := s.status }

/-- Convert a stored train to the AI modules' view (the train argument is
never inspected by the detector or optimizer, so the missing
specifications default to 0). -/
def toAITrain (t : DbTrain) : Train :=
  { id := t.id, name := t.name, type := t.type, capacity := t.capacity, status := t.status,
    specMaxSpeed := 0 }

/-- HTTP method of a request; `other` covers any method outside the
switch. -/
inductive Method
  | GET
  | POST
  | PUT
  | DELETE
  | other (name : String)
deriving DecidableEq, Repr

/-- A JSON route response: status code plus the envelope fields actually
present in the body (plus `meta` where produced). -/
structure ApiResponse where
  status : Nat
  data : Option Json
  success : Option Bool
  message : Option String
  meta : Option Json

/-- JS string truthiness test for an optional field: `undefined` and the
empty string are falsy. -/
def jsFalsyStr : Option String → Bool
  | none => true
  | some s => s = ""

/-- `new Date(a) >= new Date(b)` under the date engine; any invalid date
(`NaN`) makes the comparison false. -/
def jsDateGe (a b : Option Int) : Bool :=
  match a, b with
  | some x, some y => decide (x ≥ y)
  | _, _ => false

/-- `new Date(a) <= new Date(b)`. -/
def jsDateLe (a b : Option Int) : Bool := jsDateGe b a

def optBin (f : Int → Int → Int) : Option Int → Option Int → Option Int
  | some x, some y => some (f x y)
  | _, _ => none

/-- One bound of `Array.prototype.slice`: `undefined`/`NaN` act as 0,
negative values count from the end. -/
def jsSliceIdx (len : Nat) : Option Int → Nat
  | none => 0
  | some v => if v < 0 then (len - v.natAbs) else min v.toNat len

/-- `Array.prototype.slice(start, end)`. -/
def jsSlice {α : Type} (l : List α) (s e : Option Int) : List α :=
  (l.take (jsSliceIdx l.length e)).drop (jsSliceIdx l.length s)

/-- `Math.ceil`. -/
def jsCeil (q : ℚ) : Int := -(jsFloor (-q))

def jsNumOrNull : Option Int → Json
  | none => Json.null
  | some v => Json.num (v : ℚ)

/-- Query parameters of the `/api/schedules` route. -/
structure SchedulesQuery where
  page : Option String
  limit : Option String
  trainId : Option String
  routeId : Option String
  status : Option String
  startDate : Option String
  endDate : Option String
  id : Option String

/-- POST body of the `/api/schedules` route. -/
structure CreateScheduleBody where
  trainId : Option String
  routeId : Option String
  departureTime : Option String
  arrivalTime : Option String
  status : Option String

/-- The falsy-filter cleanup of `handleGetSchedules`: a missing or empty
filter is dropped. -/
def normalizeFilter (o : Option String) : Option String :=
  match o with
  | none => none
  | some s => if s = "" then none else some s

/-- The filter predicate of `db.getSchedules(filters)` (string comparison
on the ISO timestamps). -/
def scheduleMatches (q : SchedulesQuery) (s : DbSchedule) : Bool :=
  (match normalizeFilter q.trainId with | none => true | some v => s.trainId = v) &&
  (match normalizeFilter q.routeId with | none => true | some v => s.routeId = v) &&
  (match normalizeFilter q.status with | none => true | some v => s.status = v) &&
  (match normalizeFilter q.startDate with
    | none => true
    | some v => decide (¬ s.departureTime < v)) &&
  (match normalizeFilter q.endDate with
    | none => true
    | some v => decide (¬ v < s.departureTime))

/-- `handleGetSchedules(req, res)`: filtered read plus pagination; the
success body is a `PaginatedResponse` carrying `data`, `success` and
`meta` but no `message`. -/
def handleGetSchedules (sample : SampleData) (store : Store) (q : SchedulesQuery) :
    Except Unit (ApiResponse × Store) :=
  match DatabaseManager.getSchedules sample store with
  | Except.error e => Except.error e
  | Except.ok (allSchedules, store) =>
    let schedules := allSchedules.filter (scheduleMatches q)
    let pageNum := jsParseInt (q.page.getD "1")
    let limitNum := jsParseInt (q.limit.getD "20")
    let startIndex := optBin (fun p l => (p - 1) * l) pageNum limitNum
    let endIndex := optBin (fun s l => s + l) startIndex limitNum
    let paginatedSchedules := jsSlice schedules startIndex endIndex
    let totalPages : Json :=
      match limitNum with
      | some l =>
        if l = 0 then Json.null
        else Json.num ((jsCeil ((schedules.length : ℚ) / (l : ℚ)) : Int) : ℚ)
      | none => Json.null
    Except.ok
      ({ status := 200, data := some (encodeSchedules paginatedSchedules),
         success := some true, message := none,
         meta := some (Json.obj
           [("total", Json.num (schedules.length : ℚ)), ("page", jsNumOrNull pageNum),
            ("perPage", jsNumOrNull limitNum), ("totalPages", totalPages)]) }, store)

/-- `handleCreateSchedule(req, res)`: field-presence validation, then the
date-order validation, then the write. -/
def handleCreateSchedule (sample : SampleData) (dateVal : String → Option Int)
    (nowMs : Int) (nowIso : String) (store : Store) (body : CreateScheduleBody) :
    Except Unit (ApiResponse × Store) :=
  if jsFalsyStr body.trainId || jsFalsyStr body.routeId || jsFalsyStr body.departureTime ||
      jsFalsyStr body.arrivalTime then
    Except.ok
      ({ status := 400, data := some Json.null, success := some false,
         message := some "Missing required fields: trainId, routeId, departureTime, arrivalTime",
         meta := none }, store)
  else if jsDateGe (body.departureTime.bind dateVal) (body.arrivalTime.bind dateVal) then
    Except.ok
      ({ status := 400, data := some Json.null, success := some false,
         message := some "Departure time must be before arrival time", meta := none }, store)
  else
    match DatabaseManager.createSchedule sample store nowMs nowIso (body.trainId.getD "")
        (body.routeId.getD "") (body.departureTime.getD "") (body.arrivalTime.getD "")
        (body.status.getD "scheduled") 0 "api-user" with
    | Except.error e => Except.error e
    | Except.ok (newSchedule, store) =>
      Except.ok
        ({ status := 201, data := some (encodeSchedule newSchedule), success := some true,
           message := some "Schedule created successfully", meta := none }, store)

/-- `db.updateSchedule(id, updates)`: the object spread of the updates is
modelled by the patch function. -/
def updateScheduleDb (sample : SampleData) (store : Store) (id : String)
    (patch : DbSchedule → DbSchedule) (nowIso : String) :
    Except Unit (Option DbSchedule × Store) :=
  match DatabaseManager.getSchedules sample store with
  | Except.error e => Except.error e
  | Except.ok (schedules, store) =>
    match schedules.findIdx? (fun s => s.id = id) with
    | none => Except.ok (none, store)
    | some index =>
      match schedules.get? index with
      | none => Except.ok (none, store)
      | some old =>
        let updated := { patch old with updatedAt := nowIso }
        Except.ok
          (some updated,
            setItem store "kmrl_schedules" (encodeSchedules (schedules.set index updated)))

/-- `db.deleteSchedule(id)`. -/
def deleteScheduleDb (sample : SampleData) (store : Store) (id : String) :
    Except Unit (Bool × Store) :=
  match DatabaseManager.getSchedules sample store with
  | Except.error e => Except.error e
  | Except.ok (schedules, store) =>
    let filteredSchedules := schedules.filter (fun s => ¬ s.id = id)
    if filteredSchedules.length = schedules.length then Except.ok (false, store)
    else
      Except.ok (true, setItem store "kmrl_schedules" (encodeSchedules filteredSchedules))

/-- `handleUpdateSchedule(req, res)`. -/
def handleUpdateSchedule (sample : SampleData) (nowIso : String) (store : Store)
    (q : SchedulesQuery) (patch : DbSchedule → DbSchedule) :
    Except Unit (ApiResponse × Store) :=
  if jsFalsyStr q.id then
    Except.ok
      ({ status := 400, data := some Json.null, success := some false,
         message := some "Schedule ID is required", meta := none }, store)
  else
    match updateScheduleDb sample store (q.id.getD "") patch nowIso with
    | Except.error e => Except.error e
    | Except.ok (none, store) =>
      Except.ok
        ({ status := 404, data := some Json.null, success := some false,
           message := some "Schedule not found", meta := none }, store)
    | Except.ok (some updatedSchedule, store) =>
      Except.ok
        ({ status := 200, data := some (encodeSchedule updatedSchedule), success := some true,
           message := some "Schedule updated successfully", meta := none }, store)

/-- `handleDeleteSchedule(req, res)`. -/
def handleDeleteSchedule (sample : SampleData) (store : Store) (q : SchedulesQuery) :
    Except Unit (ApiResponse × Store) :=
  if jsFalsyStr q.id then
    Except.ok
      ({ status := 400, data := some Json.null, success := some false,
         message := some "Schedule ID is required", meta := none }, store)
  else
    match deleteScheduleDb sample store (q.id.getD "") with
    | Except.error e => Except.error e
    | Except.ok (false, store) =>
      Except.ok
        ({ status := 404, data := some Json.null, success := some false,
           message := some "Schedule not found", meta := none }, store)
    | Except.ok (true, store) =>
      Except.ok
        ({ status := 200, data := some Json.null, success := some true,
           message := some "Schedule deleted successfully", meta := none }, store)

/-- The method switch inside the try-block of the `/api/schedules`
route. -/
def schedulesInner (sample : SampleData) (dateVal : String → Option Int) (nowMs : Int)
    (nowIso : String) (store : Store) (method : Method) (q : SchedulesQuery)
    (body : CreateScheduleBody) (patch : DbSchedule → DbSchedule) :
    Except Unit (ApiResponse × Store) :=
  match method with
  | Method.GET => handleGetSchedules sample store q
  | Method.POST => handleCreateSchedule sample dateVal nowMs nowIso store body
  | Method.PUT => handleUpdateSchedule sample nowIso store q patch
  | Method.DELETE => handleDeleteSchedule sample store q
  | Method.other name =>
    Except.ok
      ({ status := 405, data := some Json.null, success := some false,
         message := some ("Method " ++ name ++ " not allowed"), meta := none }, store)

/-- The `/api/schedules` route handler: the method switch inside a
try/catch whose catch returns the generic 500 envelope. -/
def schedulesHandler (sample : SampleData) (dateVal : String → Option Int) (nowMs : Int)
    (nowIso : String) (store : Store) (method : Method) (q : SchedulesQuery)
    (body : CreateScheduleBody) (patch : DbSchedule → DbSchedule) : ApiResponse × Store :=
  match schedulesInner sample dateVal nowMs nowIso store method q body patch with
  | Except.ok r => r
  | Except.error _ =>
    ({ status := 500, data := some Json.null, success := some false,
       message := some "Internal server error", meta := none }, store)

/-- `req.method` as the string used in 405 messages. -/
def methodName : Method → String
  | Method.GET => "GET"
  | Method.POST => "POST"
  | Method.PUT => "PUT"
  | Method.DELETE => "DELETE"
  | Method.other name => name

def encodeRiskAssessment (r : ConflictDetector.RiskAssessment) : Json :=
  Json.obj
    [("highRisk", Json.num (r.highRisk : ℚ)), ("mediumRisk", Json.num (r.mediumRisk : ℚ)),
     ("lowRisk", Json.num (r.lowRisk : ℚ))]

def encodeAnalysis (a : ConflictDetector.ConflictAnalysis) : Json :=
  Json.obj
    [("conflicts", Json.arr (a.conflicts.map encodeConflict)),
     ("riskAssessment", encodeRiskAssessment a.riskAssessment),
     ("recommendations", Json.arr (a.recommendations.map Json.str))]

/-- `timeRange` of the conflicts request body. -/
structure TimeRange where
  startDate : Option String
  endDate : Option String

/-- POST body of the `/api/ai/conflicts` route (`conflictTypes` is read but
never used by the handler). -/
structure ConflictsBody where
  scheduleIds : Option (List String)
  timeRange : Option TimeRange

/-- The inner try-block of the conflicts route. -/
def conflictsInner (sample : SampleData) (dateVal : String → Option Int)
    (hoursOf minutesOf : Int → Int) (store : Store) (body : ConflictsBody) :
    Except Unit (ApiResponse × Store) :=
  match DatabaseManager.getSchedules sample store with
  | Except.error e => Except.error e
  | Except.ok (allSchedules, store) =>
    match DatabaseManager.getTrains sample store with
    | Except.error e => Except.error e
    | Except.ok (trains, store) =>
      match DatabaseManager.getRoutes sample store with
      | Except.error e => Except.error e
      | Except.ok (routes, store) =>
        let schedulesToAnalyze : List DbSchedule :=
          match body.scheduleIds with
          | some ids =>
            if ids.length > 0 then allSchedules.filter (fun s => ids.contains s.id)
            else allSchedules
          | none => allSchedules
        let schedulesToAnalyze : List DbSchedule :=
          match body.timeRange with
          | some tr =>
            if ¬ jsFalsyStr tr.startDate ∧ ¬ jsFalsyStr tr.endDate then
              schedulesToAnalyze.filter fun s =>
                jsDateGe (dateVal s.departureTime) (tr.startDate.bind dateVal) &&
                  jsDateLe (dateVal s.departureTime) (tr.endDate.bind dateVal)
            else schedulesToAnalyze
          | none => schedulesToAnalyze
        if schedulesToAnalyze.length = 0 then
          Except.ok
            ({ status := 400, data := some (Json.obj []), success := some false,
               message := some "No schedules found for conflict analysis", meta := none },
              store)
        else
          let conflictAnalysis :=
            ConflictDetector.detectConflicts hoursOf minutesOf
              (schedulesToAnalyze.map (toAISchedule dateVal)) (trains.map toAITrain) routes
          match storeConflictsGo sample store conflictAnalysis.conflicts with
          | Except.error e => Except.error e
          | Except.ok store =>
            Except.ok
              ({ status := 200, data := some (encodeAnalysis conflictAnalysis),
                 success := some true,
                 message := some ("Analyzed " ++ toString schedulesToAnalyze.length ++
                   " schedules and found " ++
                   toString conflictAnalysis.conflicts.length ++ " conflicts"),
                 meta := some (Json.obj
                   [("schedulesAnalyzed", Json.num (schedulesToAnalyze.length : ℚ)),
                    ("conflictsFound", Json.num (conflictAnalysis.conflicts.length : ℚ)),
                    ("highRiskConflicts",
                      Json.num (conflictAnalysis.riskAssessment.highRisk : ℚ)),
                    ("mediumRiskConflicts",
                      Json.num (conflictAnalysis.riskAssessment.mediumRisk : ℚ)),
                    ("lowRiskConflicts",
                      Json.num (conflictAnalysis.riskAssessment.lowRisk : ℚ))]) }, store)

/-- The `/api/ai/conflicts` route handler: a 405 guard before the
try/catch, whose catch returns the fixed 500 envelope. -/
def conflictsHandler (sample : SampleData) (dateVal : String → Option Int)
    (hoursOf minutesOf : Int → Int) (store : Store) (method : Method)
    (body : ConflictsBody) : ApiResponse × Store :=
  if method ≠ Method.POST then
    ({ status := 405, data := some (Json.obj []), success := some false,
       message := some ("Method " ++ methodName method ++ " not allowed"), meta := none },
      store)
  else
    match conflictsInner sample dateVal hoursOf minutesOf store body with
    | Except.ok r => r
    | Except.error _ =>
      ({ status := 500, data := some (Json.obj []), success := some false,
         message := some "Failed to analyze conflicts. Please try again.", meta := none },
        store)

def encodeOptResult (r : ScheduleOptimizer.OptimizationResult) : Json :=
  Json.obj
    [("originalScheduleId", Json.str r.originalScheduleId),
     ("optimizedDepartureTime", Json.num (r.optimizedDepartureTime : ℚ)),
     ("optimizedArrivalTime", Json.num (r.optimizedArrivalTime : ℚ)),
     ("efficiencyScore", Json.num r.efficiencyScore),
     ("improvementPercentage", Json.num r.improvementPercentage),
     ("delayReduction", Json.num r.delayReduction),
     ("utilizationImprovement", Json.num r.utilizationImprovement),
     ("energySavings", Json.num r.energySavings)]

/-- Partial `constraints` of the optimize request body. -/
structure OptimizeConstraintsBody where
  maxDelayMinutes : Option ℚ
  minTurnaroundTime : Option ℚ
  maintenanceWindows : Option (List String)

/-- Partial `preferences` of the optimize request body. -/
structure OptimizePreferencesBody where
  prioritizeOnTime : Option ℚ
  prioritizeEfficiency : Option ℚ
  prioritizePassengerComfort : Option ℚ

/-- POST body of the `/api/ai/optimize` route. -/
structure OptimizeBody where
  scheduleIds : Option (List String)
  optimizationType : Option String
  constraints : Option OptimizeConstraintsBody
  preferences : Option OptimizePreferencesBody

/-- JS `x || d` on an optional string. -/
def jsOrStr (x : Option String) (d : String) : String :=
  match x with
  | none => d
  | some s => if s = "" then d else s

/-- The defaults-then-spread merge building `defaultRequest`. -/
def mergedRequest (body : OptimizeBody) (ids : List String) :
    ScheduleOptimizer.AIOptimizationRequest :=
  { scheduleIds := ids
    optimizationType := jsOrStr body.optimizationType "efficiency"
    constraints :=
      { maxDelayMinutes := ((body.constraints.bind fun c => c.maxDelayMinutes).getD 15)
        minTurnaroundTime := ((body.constraints.bind fun c => c.minTurnaroundTime).getD 10)
        maintenanceWindows := ((body.constraints.bind fun c => c.maintenanceWindows).getD []) }
    preferences :=
      { prioritizeOnTime := ((body.preferences.bind fun p => p.prioritizeOnTime).getD 0.4)
        prioritizeEfficiency :=
          ((body.preferences.bind fun p => p.prioritizeEfficiency).getD 0.4)
        prioritizePassengerComfort :=
          ((body.preferences.bind fun p => p.prioritizePassengerComfort).getD 0.2) } }

/-- The inner try-block of the optimize route. -/
def optimizeInner (sample : SampleData) (dateVal : String → Option Int) (sqrtQ : ℚ → ℚ)
    (rng : Rng) (store : Store) (body : OptimizeBody) : Except Unit (ApiResponse × Store) :=
  match body.scheduleIds with
  | none =>
    Except.ok
      ({ status := 400, data := some (Json.arr []), success := some false,
         message := some "Schedule IDs are required for optimization", meta := none }, store)
  | some ids =>
    if ids.length = 0 then
      Except.ok
        ({ status := 400, data := some (Json.arr []), success := some false,
           message := some "Schedule IDs are required for optimization", meta := none }, store)
    else
      match DatabaseManager.getSchedules sample store with
      | Except.error e => Except.error e
      | Except.ok (allSchedules, store) =>
        match DatabaseManager.getTrains sample store with
        | Except.error e => Except.error e
        | Except.ok (trains, store) =>
          match DatabaseManager.getRoutes sample store with
          | Except.error e => Except.error e
          | Except.ok (routes, store) =>
            let schedulesToOptimize := allSchedules.filter (fun s => ids.contains s.id)
            if schedulesToOptimize.length = 0 then
              Except.ok
                ({ status := 404, data := some (Json.arr []), success := some false,
                   message := some "No valid schedules found for optimization",
                   meta := none }, store)
            else
              let defaultRequest := mergedRequest body ids
              let optimizationResults :=
                (ScheduleOptimizer.optimizeSchedules
                  (schedulesToOptimize.map (toAISchedule dateVal)) (trains.map toAITrain)
                  routes defaultRequest sqrtQ rng).1
              let averageImprovement : ℚ :=
                if optimizationResults.length > 0 then
                  (optimizationResults.foldl (fun acc r => acc + r.improvementPercentage) 0) /
                    (optimizationResults.length : ℚ)
                else 0
              Except.ok
                ({ status := 200,
                   data := some (Json.arr (optimizationResults.map encodeOptResult)),
                   success := some true,
                   message := some ("Successfully optimized " ++
                     toString optimizationResults.length ++ " schedules"),
                   meta := some (Json.obj
                     [("optimizationType", Json.str defaultRequest.optimizationType),
                      ("schedulesProcessed", Json.num (schedulesToOptimize.length : ℚ)),
                      ("averageImprovement", Json.num averageImprovement)]) }, store)

/-- The `/api/ai/optimize` route handler. -/
def optimizeHandler (sample : SampleData) (dateVal : String → Option Int) (sqrtQ : ℚ → ℚ)
    (rng : Rng) (store : Store) (method : Method) (body : OptimizeBody) :
    ApiResponse × Store :=
  if method ≠ Method.POST then
    ({ status := 405, data := some (Json.arr []), success := some false,
       message := some ("Method " ++ methodName method ++ " not allowed"), meta := none },
      store)
  else
    match optimizeInner sample dateVal sqrtQ rng store body with
    | Except.ok r => r
    | Except.error _ =>
      ({ status := 500, data := some (Json.arr []), success := some false,
         message := some "Failed to optimize schedules. Please try again.", meta := none },
        store)

/-- Body of a `POST /send-email` request to the Express proxy (the `to`
and `from` fields are keywords in Lean and carry an `Addr` suffix). -/
structure SendEmailBody where
  toAddr : Option String
  fromAddr : Option String
  subject : Option String
  text : Option String
deriving DecidableEq, Repr

/-- The payload the proxy builds for the SendGrid API (the nested
`personalizations`/`from`/`content` object flattened to its four data
fields). -/
structure SendGridPayload where
  toEmail : Option String
  subject : Option String
  fromEmail : Option String
  text : Option String
deriving DecidableEq, Repr

/-- Observable actions of the proxy: one upstream HTTP call, one response
to the client. -/
inductive ProxyEvent
  | upstreamCall (payload : SendGridPayload)
  | respond (status : Nat) (message : String)
deriving DecidableEq, Repr

/-- Outcome of the single `axios.post` call: a success status, or a failure
with an optional upstream response status. -/
inductive UpstreamOutcome
  | success (status : Nat)
  | failure (status : Option Nat)
deriving DecidableEq, Repr

/-- `error.response?.status || 500` (a zero status is falsy in JS). -/
def jsOrStatus : Option Nat → Nat
  | none => 500
  | some s => if s = 0 then 500 else s

/-- The `POST /send-email` handler of the SendGrid proxy, as its trace of
observable events: exactly one upstream call, then exactly one response (a
success echoes the upstream status; a failure uses the upstream error
status or 500). -/
def sendEmailHandler (body : SendEmailBody) (outcome : UpstreamOutcome) : List ProxyEvent :=
  let payload : SendGridPayload :=
    { toEmail := body.toAddr, subject := body.subject, fromEmail := body.fromAddr,
      text := body.text }
  match outcome with
  | UpstreamOutcome.success status =>
    [ProxyEvent.upstreamCall payload, ProxyEvent.respond status "Email sent successfully!"]
  | UpstreamOutcome.failure status =>
    [ProxyEvent.upstreamCall payload,
      ProxyEvent.respond (jsOrStatus status) "Failed to send email"]

/-- `createSchedule` on a store whose schedule blob decodes to `ss`: the new
record is appended and written back. -/
theorem createSchedule_of_stored (sample : SampleData) (store : Store) (nowMs : Int)
    (nowIso : String) (ss : List DbSchedule)
    (trainId routeId departureTime arrivalTime status : String) (delayMinutes : ℚ)
    (createdBy : String)
    (htr : (getItem store "kmrl_trains").isSome)
    (hsch : getItem store "kmrl_schedules" = some (encodeSchedules ss)) :
    DatabaseManager.createSchedule sample store nowMs nowIso trainId routeId departureTime
        arrivalTime status delayMinutes createdBy =
      Except.ok (DatabaseManager.mkNewSchedule nowMs nowIso trainId routeId departureTime
          arrivalTime status delayMinutes createdBy,
        setItem store "kmrl_schedules" (encodeSchedules (ss ++
          [DatabaseManager.mkNewSchedule nowMs nowIso trainId routeId departureTime
            arrivalTime status delayMinutes createdBy]))) := by
  unfold DatabaseManager.createSchedule
  rw [DatabaseManager.getSchedules_of_stored sample store ss htr hsch]
  rfl

/-- The record `POST /api/schedules` constructs from its request body. -/
def mkBodySchedule (nowMs : Int) (nowIso : String) (body : CreateScheduleBody) : DbSchedule :=
  DatabaseManager.mkNewSchedule nowMs nowIso (body.trainId.getD "") (body.routeId.getD "")
    (body.departureTime.getD "") (body.arrivalTime.getD "") (body.status.getD "scheduled")
    0 "api-user"

/-- C10. `POST /api/schedules` is atomic on validation failure: a missing
field, or (with both timestamps parsing to instants `d`, `a`) a departure not
strictly before the arrival, yields status 400 with the store returned
unchanged; otherwise the handler returns 201 and writes back exactly the
previous list with the new schedule appended, whose `delayMinutes` is 0 and
whose `status` defaults to "scheduled" when the body omits it. -/
theorem handleCreateSchedule_atomic (sample : SampleData) (dateVal : String → Option Int)
    (nowMs : Int) (nowIso : String) (store : Store) (body : CreateScheduleBody)
    (ss : List DbSchedule) (d a : Int)
    (htr : (getItem store "kmrl_trains").isSome)
    (hsch : getItem store "kmrl_schedules" = some (encodeSchedules ss))
    (hd : body.departureTime.bind dateVal = some d)
    (ha : body.arrivalTime.bind dateVal = some a) :
    ((jsFalsyStr body.trainId || jsFalsyStr body.routeId || jsFalsyStr body.departureTime ||
        jsFalsyStr body.arrivalTime) = true →
      handleCreateSchedule sample dateVal nowMs nowIso store body =
        Except.ok
          ({ status := 400, data := some Json.null, success := some false,
             message := some
               "Missing required fields: trainId, routeId, departureTime, arrivalTime",
             meta := none }, store)) ∧
    ((jsFalsyStr body.trainId || jsFalsyStr body.routeId || jsFalsyStr body.departureTime ||
        jsFalsyStr body.arrivalTime) = false → ¬ d < a →
      handleCreateSchedule sample dateVal nowMs nowIso store body =
        Except.ok
          ({ status := 400, data := some Json.null, success := some false,
             message := some "Departure time must be before arrival time",
             meta := none }, store)) ∧
    ((jsFalsyStr body.trainId || jsFalsyStr body.routeId || jsFalsyStr body.departureTime ||
        jsFalsyStr body.arrivalTime) = false → d < a →
      handleCreateSchedule sample dateVal nowMs nowIso store body =
        Except.ok
          ({ status := 201, data := some (encodeSchedule (mkBodySchedule nowMs nowIso body)),
             success := some true, message := some "Schedule created successfully",
             meta := none },
            setItem store "kmrl_schedules"
              (encodeSchedules (ss ++ [mkBodySchedule nowMs nowIso body]))) ∧
      (mkBodySchedule nowMs nowIso body).delayMinutes = 0 ∧
      (mkBodySchedule nowMs nowIso body).status = body.status.getD "scheduled") := by
  refine ⟨?_, ?_, ?_⟩
  · intro h
    unfold handleCreateSchedule
    rw [if_pos h]
  · intro h hge
    unfold handleCreateSchedule
    rw [if_neg (by simp [h]), hd, ha]
    rw [if_pos (by simp [jsDateGe, Int.not_lt.mp hge])]
  · intro h hlt
    refine ⟨?_, rfl, rfl⟩
    unfold handleCreateSchedule
    rw [if_neg (by simp [h]), hd, ha]
    rw [if_neg (by simp [jsDateGe]; omega)]
    rw [createSchedule_of_stored sample store nowMs nowIso ss _ _ _ _ _ _ _ htr hsch]
    rfl

/-- An all-absent query for concrete runs of the schedules route. -/
def qEmptyW : SchedulesQuery :=
  { page := none, limit := none, trainId := none, routeId := none, status := none,
    startDate := none, endDate := none, id := none }

/-- A fully populated create-schedule body for concrete runs. -/
def cbodyW : CreateScheduleBody :=
  { trainId := some "t1", routeId := some "r1",
    departureTime := some "2025-01-01T00:00:00Z",
    arrivalTime := some "2025-01-01T01:00:00Z", status := none }

/-- A concrete date engine resolving the two timestamps of `cbodyW`. -/
def dateValW : String → Option Int := fun s =>
  if s = "2025-01-01T00:00:00Z" then some 0
  else if s = "2025-01-01T01:00:00Z" then some 3600000
  else none

/-- Witness for C10 at a concrete store: the valid body is appended with
`delayMinutes` 0 and defaulted status. -/
theorem handleCreateSchedule_atomic_witness :
    handleCreateSchedule sampleW dateValW 7 "2025-01-01T00:00:00.000Z" wStore cbodyW =
      Except.ok
        ({ status := 201,
           data := some (encodeSchedule (mkBodySchedule 7 "2025-01-01T00:00:00.000Z" cbodyW)),
           success := some true, message := some "Schedule created successfully",
           meta := none },
          setItem wStore "kmrl_schedules"
            (encodeSchedules ([] ++ [mkBodySchedule 7 "2025-01-01T00:00:00.000Z" cbodyW]))) ∧
      (mkBodySchedule 7 "2025-01-01T00:00:00.000Z" cbodyW).delayMinutes = 0 ∧
      (mkBodySchedule 7 "2025-01-01T00:00:00.000Z" cbodyW).status =
        cbodyW.status.getD "scheduled" :=
  (handleCreateSchedule_atomic sampleW dateValW 7 "2025-01-01T00:00:00.000Z" wStore cbodyW
      [] 0 3600000 (by with_unfolding_all rfl) (by with_unfolding_all rfl)
      (by with_unfolding_all rfl) (by with_unfolding_all rfl)).2.2
    (by with_unfolding_all rfl) (by decide)

/-- C5. Each of the three route handlers wraps its work in a try/catch: when
the inner computation throws (here: surfaces `Except.error`), the handler
returns HTTP 500 with `success := false` and the route's fixed generic
message, and the store is left unchanged. -/
theorem handlers_catch_500 (sample : SampleData) (dateVal : String → Option Int)
    (nowMs : Int) (nowIso : String) (hoursOf minutesOf : Int → Int) (sqrtQ : ℚ → ℚ)
    (rng : Rng) (store : Store) (method : Method) (q : SchedulesQuery)
    (cbody : CreateScheduleBody) (patch : DbSchedule → DbSchedule) (kbody : ConflictsBody)
    (obody : OptimizeBody) :
    (schedulesInner sample dateVal nowMs nowIso store method q cbody patch =
        Except.error () →
      schedulesHandler sample dateVal nowMs nowIso store method q cbody patch =
        ({ status := 500, data := some Json.null, success := some false,
           message := some "Internal server error", meta := none }, store)) ∧
    (conflictsInner sample dateVal hoursOf minutesOf store kbody = Except.error () →
      conflictsHandler sample dateVal hoursOf minutesOf store Method.POST kbody =
        ({ status := 500, data := some (Json.obj []), success := some false,
           message := some "Failed to analyze conflicts. Please try again.",
           meta := none }, store)) ∧
    (optimizeInner sample dateVal sqrtQ rng store obody = Except.error () →
      optimizeHandler sample dateVal sqrtQ rng store Method.POST obody =
        ({ status := 500, data := some (Json.arr []), success := some false,
           message := some "Failed to optimize schedules. Please try again.",
           meta := none }, store)) := by
  refine ⟨?_, ?_, ?_⟩
  · intro h
    unfold schedulesHandler
    rw [h]
  · intro h
    unfold conflictsHandler
    rw [if_neg (by simp), h]
  · intro h
    unfold optimizeHandler
    rw [if_neg (by simp), h]

/-- A store whose schedule blob is malformed: reading it makes the database
layer throw. -/
def wBadStore : Store := [("kmrl_trains", encodeTrains []), ("kmrl_schedules", Json.num 3)]

/-- An empty conflicts request body. -/
def kbodyW : ConflictsBody := { scheduleIds := none, timeRange := none }

/-- An optimize request body naming one schedule id. -/
def obodyW : OptimizeBody :=
  { scheduleIds := some ["s1"], optimizationType := none, constraints := none,
    preferences := none }

/-- Witness for C5 at the malformed store: all three handlers return their
fixed 500 envelope. -/
theorem handlers_catch_500_witness :
    schedulesHandler sampleW dateValW 0 "iso" wBadStore Method.GET qEmptyW cbodyW id =
      ({ status := 500, data := some Json.null, success := some false,
         message := some "Internal server error", meta := none }, wBadStore) ∧
    conflictsHandler sampleW dateValW (fun _ => 0) (fun _ => 0) wBadStore Method.POST kbodyW =
      ({ status := 500, data := some (Json.obj []), success := some false,
         message := some "Failed to analyze conflicts. Please try again.",
         meta := none }, wBadStore) ∧
    optimizeHandler sampleW dateValW (fun _ => 0) (fun _ => 0) wBadStore Method.POST obodyW =
      ({ status := 500, data := some (Json.arr []), success := some false,
         message := some "Failed to optimize schedules. Please try again.",
         meta := none }, wBadStore) :=
  ⟨(handlers_catch_500 sampleW dateValW 0 "iso" (fun _ => 0) (fun _ => 0) (fun _ => 0)
      (fun _ => 0) wBadStore Method.GET qEmptyW cbodyW id kbodyW obodyW).1
      (by with_unfolding_all rfl),
    (handlers_catch_500 sampleW dateValW 0 "iso" (fun _ => 0) (fun _ => 0) (fun _ => 0)
      (fun _ => 0) wBadStore Method.GET qEmptyW cbodyW id kbodyW obodyW).2.1
      (by with_unfolding_all rfl),
    (handlers_catch_500 sampleW dateValW 0 "iso" (fun _ => 0) (fun _ => 0) (fun _ => 0)
      (fun _ => 0) wBadStore Method.GET qEmptyW cbodyW id kbodyW obodyW).2.2
      (by with_unfolding_all rfl)⟩

/-- C8. The proxy's `POST /send-email` trace holds exactly one upstream call
and exactly one client response (so no retry and no queuing); the response
echoes the upstream success status, and on failure uses the upstream error
status when one exists (and is not the falsy 0) and 500 otherwise. -/
theorem sendEmailHandler_single_shot (body : SendEmailBody) (outcome : UpstreamOutcome) :
    ((sendEmailHandler body outcome).countP fun e =>
        match e with
        | ProxyEvent.upstreamCall _ => true
        | ProxyEvent.respond _ _ => false) = 1 ∧
    ((sendEmailHandler body outcome).countP fun e =>
        match e with
        | ProxyEvent.upstreamCall _ => false
        | ProxyEvent.respond _ _ => true) = 1 ∧
    (∀ st, outcome = UpstreamOutcome.success st →
      (sendEmailHandler body outcome).getLast? =
        some (ProxyEvent.respond st "Email sent successfully!")) ∧
    (∀ st, outcome = UpstreamOutcome.failure (some st) → st ≠ 0 →
      (sendEmailHandler body outcome).getLast? =
        some (ProxyEvent.respond st "Failed to send email")) ∧
    (outcome = UpstreamOutcome.failure none →
      (sendEmailHandler body outcome).getLast? =
        some (ProxyEvent.respond 500 "Failed to send email")) := by
  cases outcome with
  | success s =>
    refine ⟨rfl, rfl, ?_, ?_, ?_⟩
    · intro st h
      injection h with h
      subst h
      rfl
    · intro st h
      exact absurd h (by simp)
    · intro h
      exact absurd h (by simp)
  | failure os =>
    refine ⟨rfl, rfl, ?_, ?_, ?_⟩
    · intro st h
      exact absurd h (by simp)
    · intro st h hne
      injection h with h
      subst h
      simp only [sendEmailHandler, jsOrStatus, if_neg hne]
      rfl
    · intro h
      injection h with h
      subst h
      rfl

/-- A concrete send-email body. -/
def emailBodyW : SendEmailBody :=
  { toAddr := some "rider@kochimetro.example", fromAddr := some "ops@kochimetro.example",
    subject := some "Service update", text := some "Trains on time." }

/-- Witness for C8: an upstream failure with status 403 is answered once,
with 403. -/
theorem sendEmailHandler_single_shot_witness :
    (sendEmailHandler emailBodyW (UpstreamOutcome.failure (some 403))).getLast? =
      some (ProxyEvent.respond 403 "Failed to send email") :=
  (sendEmailHandler_single_shot emailBodyW
      (UpstreamOutcome.failure (some 403))).2.2.2.1 403 rfl (by decide)

/-- The `{data, success, message}` envelope property of a response. -/
def FullEnvelope (r : ApiResponse) : Prop :=
  r.data.isSome ∧ r.success.isSome ∧ r.message.isSome

/-- Envelope shape of a try-block outcome under the amended reading of the
schedules route: a thrown error imposes nothing (the catch decides), a
produced response carries data and success, and message except on the GET
success branch, which carries meta. -/
def InnerEnvOk (method : Method) : Except Unit (ApiResponse × Store) → Prop
  | Except.error _ => True
  | Except.ok (r, _) =>
    r.data.isSome ∧ r.success.isSome ∧
      (r.message.isSome ∨ (method = Method.GET ∧ r.status = 200 ∧ r.meta.isSome))

/-- Envelope shape of a try-block outcome with message on every branch. -/
def InnerFullOk : Except Unit (ApiResponse × Store) → Prop
  | Except.error _ => True
  | Except.ok (r, _) => FullEnvelope r

theorem schedulesInner_env (sample : SampleData) (dateVal : String → Option Int)
    (nowMs : Int) (nowIso : String) (store : Store) (method : Method) (q : SchedulesQuery)
    (cbody : CreateScheduleBody) (patch : DbSchedule → DbSchedule) :
    InnerEnvOk method (schedulesInner sample dateVal nowMs nowIso store method q cbody
      patch) := by
  cases method with
  | GET =>
    unfold schedulesInner handleGetSchedules
    repeat' first | dsimp only | split
    all_goals first
      | exact trivial
      | exact ⟨rfl, rfl, Or.inl rfl⟩
      | exact ⟨rfl, rfl, Or.inr ⟨rfl, rfl, rfl⟩⟩
  | POST =>
    unfold schedulesInner handleCreateSchedule
    repeat' first | dsimp only | split
    all_goals first
      | exact trivial
      | exact ⟨rfl, rfl, Or.inl rfl⟩
  | PUT =>
    unfold schedulesInner handleUpdateSchedule
    repeat' first | dsimp only | split
    all_goals first
      | exact trivial
      | exact ⟨rfl, rfl, Or.inl rfl⟩
  | DELETE =>
    unfold schedulesInner handleDeleteSchedule
    repeat' first | dsimp only | split
    all_goals first
      | exact trivial
      | exact ⟨rfl, rfl, Or.inl rfl⟩
  | other name =>
    exact ⟨rfl, rfl, Or.inl rfl⟩

theorem conflictsInner_env (sample : SampleData) (dateVal : String → Option Int)
    (hoursOf minutesOf : Int → Int) (store : Store) (kbody : ConflictsBody) :
    InnerFullOk (conflictsInner sample dateVal hoursOf minutesOf store kbody) := by
  unfold conflictsInner
  repeat' first | dsimp only | split
  all_goals first | exact trivial | exact ⟨rfl, rfl, rfl⟩

theorem optimizeInner_env (sample : SampleData) (dateVal : String → Option Int)
    (sqrtQ : ℚ → ℚ) (rng : Rng) (store : Store) (obody : OptimizeBody) :
    InnerFullOk (optimizeInner sample dateVal sqrtQ rng store obody) := by
  unfold optimizeInner
  repeat' first | dsimp only | split
  all_goals first | exact trivial | exact ⟨rfl, rfl, rfl⟩

theorem schedulesHandler_env (sample : SampleData) (dateVal : String → Option Int)
    (nowMs : Int) (nowIso : String) (store : Store) (method : Method) (q : SchedulesQuery)
    (cbody : CreateScheduleBody) (patch : DbSchedule → DbSchedule) :
    (schedulesHandler sample dateVal nowMs nowIso store method q cbody patch).1.data.isSome ∧
    (schedulesHandler sample dateVal nowMs nowIso store method q cbody
      patch).1.success.isSome ∧
    ((schedulesHandler sample dateVal nowMs nowIso store method q cbody
        patch).1.message.isSome ∨
      (method = Method.GET ∧
        (schedulesHandler sample dateVal nowMs nowIso store method q cbody
          patch).1.status = 200 ∧
        (schedulesHandler sample dateVal nowMs nowIso store method q cbody
          patch).1.meta.isSome)) := by
  have h := schedulesInner_env sample dateVal nowMs nowIso store method q cbody patch
  unfold schedulesHandler
  cases hinner : schedulesInner sample dateVal nowMs nowIso store method q cbody patch with
  | error e => simp
  | ok p =>
    rw [hinner] at h
    obtain ⟨r, s⟩ := p
    simpa [InnerEnvOk] using h

theorem conflictsHandler_env (sample : SampleData) (dateVal : String → Option Int)
    (hoursOf minutesOf : Int → Int) (store : Store) (method : Method)
    (kbody : ConflictsBody) :
    FullEnvelope (conflictsHandler sample dateVal hoursOf minutesOf store method kbody).1 := by
  have h := conflictsInner_env sample dateVal hoursOf minutesOf store kbody
  unfold conflictsHandler
  split
  · exact ⟨rfl, rfl, rfl⟩
  · cases hinner : conflictsInner sample dateVal hoursOf minutesOf store kbody with
    | error e => exact ⟨rfl, rfl, rfl⟩
    | ok p =>
      rw [hinner] at h
      obtain ⟨r, s⟩ := p
      simpa [InnerFullOk] using h

theorem optimizeHandler_env (sample : SampleData) (dateVal : String → Option Int)
    (sqrtQ : ℚ → ℚ) (rng : Rng) (store : Store) (method : Method) (obody : OptimizeBody) :
    FullEnvelope (optimizeHandler sample dateVal sqrtQ rng store method obody).1 := by
  have h := optimizeInner_env sample dateVal sqrtQ rng store obody
  unfold optimizeHandler
  split
  · exact ⟨rfl, rfl, rfl⟩
  · cases hinner : optimizeInner sample dateVal sqrtQ rng store obody with
    | error e => exact ⟨rfl, rfl, rfl⟩
    | ok p =>
      rw [hinner] at h
      obtain ⟨r, s⟩ := p
      simpa [InnerFullOk] using h

/-- C4 (counterexample). On a successful GET of `/api/schedules`, the 200
response carries `data`, `success` and `meta` but no `message`: the claimed
`{data, success, message}` envelope fails on this branch. -/
theorem schedulesGet_success_no_message :
    (schedulesHandler sampleW dateValW 0 "iso" wStore Method.GET qEmptyW cbodyW
      id).1.status = 200 ∧
    (schedulesHandler sampleW dateValW 0 "iso" wStore Method.GET qEmptyW cbodyW
      id).1.success = some true ∧
    (schedulesHandler sampleW dateValW 0 "iso" wStore Method.GET qEmptyW cbodyW
      id).1.message = none ∧
    ¬ FullEnvelope (schedulesHandler sampleW dateValW 0 "iso" wStore Method.GET qEmptyW
      cbodyW id).1 := by
  have hm : (schedulesHandler sampleW dateValW 0 "iso" wStore Method.GET qEmptyW cbodyW
      id).1.message = none := by
    with_unfolding_all rfl
  refine ⟨by with_unfolding_all rfl, by with_unfolding_all rfl, hm, fun h => ?_⟩
  obtain ⟨-, -, h3⟩ := h
  rw [hm] at h3
  simp at h3

/-- C4 (amended). Every response of the three route handlers carries `data`
and `success`; `/api/ai/conflicts` and `/api/ai/optimize` also carry
`message` on every branch, while `/api/schedules` carries `message` on every
branch except the GET success branch, which carries `meta` instead of
`message`. -/
theorem api_envelopes_amended (sample : SampleData) (dateVal : String → Option Int)
    (nowMs : Int) (nowIso : String) (hoursOf minutesOf : Int → Int) (sqrtQ : ℚ → ℚ)
    (rng : Rng) (store : Store) (method : Method) (q : SchedulesQuery)
    (cbody : CreateScheduleBody) (patch : DbSchedule → DbSchedule) (kbody : ConflictsBody)
    (obody : OptimizeBody) :
    ((schedulesHandler sample dateVal nowMs nowIso store method q cbody
        patch).1.data.isSome ∧
      (schedulesHandler sample dateVal nowMs nowIso store method q cbody
        patch).1.success.isSome ∧
      ((schedulesHandler sample dateVal nowMs nowIso store method q cbody
          patch).1.message.isSome ∨
        (method = Method.GET ∧
          (schedulesHandler sample dateVal nowMs nowIso store method q cbody
            patch).1.status = 200 ∧
          (schedulesHandler sample dateVal nowMs nowIso store method q cbody
            patch).1.meta.isSome))) ∧
    FullEnvelope (conflictsHandler sample dateVal hoursOf minutesOf store method kbody).1 ∧
    FullEnvelope (optimizeHandler sample dateVal sqrtQ rng store method obody).1 :=
  ⟨schedulesHandler_env sample dateVal nowMs nowIso store method q cbody patch,
    conflictsHandler_env sample dateVal hoursOf minutesOf store method kbody,
    optimizeHandler_env sample dateVal sqrtQ rng store method obody⟩
